import Mathlib

/-!
Verification development for the Bedrock quota-dashboard stack.

Shallow embedding of:
* the registry shared types and helper functions
  (`lib/bedrock-registries/types.ts`): `EndpointType`, `QuotaCodes`,
  `ModelConfig`, `getQuotaCodes`, `validateModelEndpointSupport`,
  `getSupportedEndpointTypes`;
* the region registry tables (`lib/bedrock-registries/us-west-2.ts` and
  `us-east-1.ts`; the active region per `lib/bedrock-registries.ts` is
  us-east-1);
* the dashboard stack (`lib/cdk-quota-dashboards-stack.ts`):
  configuration validation, full model ids, CloudWatch metric and
  metric-math construction for the derived series, family banners and
  widget layout, and the model lists handed to the scheduled and the
  initial quota fetch.

CloudWatch machinery is embedded as plain data: a `Metric` records the
namespace, metric name, ModelId dimension, statistic and period that the
code passes to the CloudWatch constructs, and a metric-math expression is
an `MExpr` tree mirroring the expression string the code builds, with
`evalExpr` giving the arithmetic that CloudWatch metric math performs on
a time bucket in which every referenced series has a value.  Token
counters are embedded as naturals.
-/

set_option autoImplicit false

/-- `EndpointType` from `lib/bedrock-registries/types.ts`:
`'regional' | 'cross-region' | 'global-cross-region'`. -/
inductive EndpointType
  | regional
  | crossRegion
  | globalCrossRegion
deriving DecidableEq, BEq, Fintype

/-- The string value of an `EndpointType` as written in the source. -/
def endpointTypeName : EndpointType → String
  | .regional => "regional"
  | .crossRegion => "cross-region"
  | .globalCrossRegion => "global-cross-region"

/-- `QuotaCodes` from `lib/bedrock-registries/types.ts`: each of the two
identifiers is optional. -/
structure QuotaCodes where
  tokenQuotaCode : Option String
  requestQuotaCode : Option String
deriving DecidableEq

/-- A model configuration object (`ModelConfig` from
`lib/bedrock-registries/types.ts`).  The TypeScript mapped type only
allows the quota-code property of a supported endpoint to be present; at
runtime each property is either an object or undefined, embedded here as
an `Option`. -/
structure ModelConfig where
  modelId : String
  outputTokenBurndownRate : Nat
  supportedEndpoints : List EndpointType
  regional : Option QuotaCodes
  crossRegion : Option QuotaCodes
  globalCrossRegion : Option QuotaCodes
deriving DecidableEq

/-- `getQuotaCodes` from `lib/bedrock-registries/types.ts`: switch on the
endpoint type and return the corresponding property `|| null`.  The
function is total: every branch returns a value (the TypeScript `default`
branch returning null is unreachable for the three-valued
`EndpointType`), so the lookup never throws. -/
def getQuotaCodes (modelConfig : ModelConfig) (endpointType : EndpointType) : Option QuotaCodes :=
  match endpointType with
  | .regional => modelConfig.regional
  | .crossRegion => modelConfig.crossRegion
  | .globalCrossRegion => modelConfig.globalCrossRegion

/-- `validateModelEndpointSupport` from `lib/bedrock-registries/types.ts`:
membership of the endpoint type in the model's `supportedEndpoints`. -/
def validateModelEndpointSupport (modelConfig : ModelConfig) (endpointType : EndpointType) : Bool :=
  modelConfig.supportedEndpoints.contains endpointType

/-- `getSupportedEndpointTypes` from `lib/bedrock-registries/types.ts`. -/
def getSupportedEndpointTypes (modelConfig : ModelConfig) : List EndpointType :=
  modelConfig.supportedEndpoints

/-- A model config that the registry does not know: no quota-code
property is defined for any endpoint (`supported.length === 0` is how
`validateAllDashboardConfigs` recognises a model with no registry
entry). -/
def unknownToRegistry (modelConfig : ModelConfig) : Prop :=
  modelConfig.regional = none ∧ modelConfig.crossRegion = none ∧
    modelConfig.globalCrossRegion = none

/-- A registry lookup result that is present and carries at least one of
the two quota identifiers. -/
def presentQuotaCodes (modelConfig : ModelConfig) (endpointType : EndpointType) : Bool :=
  match getQuotaCodes modelConfig endpointType with
  | none => false
  | some q => q.tokenQuotaCode.isSome || q.requestQuotaCode.isSome
namespace UsWest2

def AMAZON_NOVA_MICRO_V1 : ModelConfig where
  modelId := "amazon.nova-micro-v1:0"
  outputTokenBurndownRate := 1
  supportedEndpoints := [.crossRegion]
  regional := none
  crossRegion := some { tokenQuotaCode := some "L-DC7FF66C", requestQuotaCode := some "L-3F110E0F" }
  globalCrossRegion := none

def AMAZON_NOVA_LITE_V1 : ModelConfig where
  modelId := "amazon.nova-lite-v1:0"
  outputTokenBurndownRate := 1
  supportedEndpoints := [.crossRegion]
  regional := none
  crossRegion := some { tokenQuotaCode := some "L-7C42E72A", requestQuotaCode := some "L-89F8391A" }
  globalCrossRegion := none

def AMAZON_NOVA_PRO_V1 : ModelConfig where
  modelId := "amazon.nova-pro-v1:0"
  outputTokenBurndownRate := 1
  supportedEndpoints := [.crossRegion]
  regional := none
  crossRegion := some { tokenQuotaCode := some "L-C0326783", requestQuotaCode := some "L-ED46B8C5" }
  globalCrossRegion := none

def AMAZON_NOVA_PREMIER_V1 : ModelConfig where
  modelId := "amazon.nova-premier-v1:0"
  outputTokenBurndownRate := 1
  supportedEndpoints := [.crossRegion]
  regional := none
  crossRegion := some { tokenQuotaCode := some "L-AA7FE948", requestQuotaCode := some "L-9AD981E7" }
  globalCrossRegion := none

def AMAZON_NOVA_2_LITE_V1 : ModelConfig where
  modelId := "amazon.nova-2-lite-v1:0"
  outputTokenBurndownRate := 1
  supportedEndpoints := [.crossRegion, .globalCrossRegion]
  regional := none
  crossRegion := some { tokenQuotaCode := some "L-C6F5908D", requestQuotaCode := some "L-F06F1187" }
  globalCrossRegion := some { tokenQuotaCode := some "L-71C69B70", requestQuotaCode := some "L-D5F39C2F" }

def ANTHROPIC_CLAUDE_3_HAIKU : ModelConfig where
  modelId := "anthropic.claude-3-haiku-20240307-v1:0"
  outputTokenBurndownRate := 1
  supportedEndpoints := [.regional, .crossRegion]
  regional := some { tokenQuotaCode := some "L-8CE99163", requestQuotaCode := some "L-2DC80978" }
  crossRegion := some { tokenQuotaCode := some "L-DCADBC78", requestQuotaCode := some "L-616A3F5B" }
  globalCrossRegion := none

def ANTHROPIC_CLAUDE_3_5_SONNET_20240620 : ModelConfig where
  modelId := "anthropic.claude-3-5-sonnet-20240620-v1:0"
  outputTokenBurndownRate := 1
  supportedEndpoints := [.regional, .crossRegion]
  regional := some { tokenQuotaCode := some "L-A50569E5", requestQuotaCode := some "L-254CACF4" }
  crossRegion := some { tokenQuotaCode := some "L-479B647F", requestQuotaCode := some "L-F457545D" }
  globalCrossRegion := none

def ANTHROPIC_CLAUDE_3_5_HAIKU : ModelConfig where
  modelId := "anthropic.claude-3-5-haiku-20241022-v1:0"
  outputTokenBurndownRate := 1
  supportedEndpoints := [.regional, .crossRegion]
  regional := some { tokenQuotaCode := some "L-7AB4ABDD", requestQuotaCode := some "L-C7438F8F" }
  crossRegion := some { tokenQuotaCode := some "L-4BF37C17", requestQuotaCode := some "L-252DF594" }
  globalCrossRegion := none

def ANTHROPIC_CLAUDE_3_7_SONNET : ModelConfig where
  modelId := "anthropic.claude-3-7-sonnet-20250219-v1:0"
  outputTokenBurndownRate := 5
  supportedEndpoints := [.crossRegion]
  regional := none
  crossRegion := some { tokenQuotaCode := some "L-6E888CC2", requestQuotaCode := some "L-3D8CC480" }
  globalCrossRegion := none

def ANTHROPIC_CLAUDE_HAIKU_4_5 : ModelConfig where
  modelId := "anthropic.claude-haiku-4-5-20251001-v1:0"
  outputTokenBurndownRate := 5
  supportedEndpoints := [.crossRegion, .globalCrossRegion]
  regional := none
  crossRegion := some { tokenQuotaCode := some "L-58BE175A", requestQuotaCode := some "L-CCA5DF70" }
  globalCrossRegion := some { tokenQuotaCode := some "L-9A11C666", requestQuotaCode := some "L-E5084BBA" }

def ANTHROPIC_CLAUDE_SONNET_4 : ModelConfig where
  modelId := "anthropic.claude-sonnet-4-20250514-v1:0"
  outputTokenBurndownRate := 5
  supportedEndpoints := [.crossRegion, .globalCrossRegion]
  regional := none
  crossRegion := some { tokenQuotaCode := some "L-59759B4A", requestQuotaCode := some "L-559DCC33" }
  globalCrossRegion := some { tokenQuotaCode := some "L-97E41E39", requestQuotaCode := some "L-C63AA5DA" }

def ANTHROPIC_CLAUDE_SONNET_4_5 : ModelConfig where
  modelId := "anthropic.claude-sonnet-4-5-20250929-v1:0"
  outputTokenBurndownRate := 5
  supportedEndpoints := [.crossRegion, .globalCrossRegion]
  regional := none
  crossRegion := some { tokenQuotaCode := some "L-F4DDD3EB", requestQuotaCode := some "L-4A6BFAB1" }
  globalCrossRegion := some { tokenQuotaCode := some "L-27C57EE8", requestQuotaCode := some "L-DB84CE56" }

def ANTHROPIC_CLAUDE_OPUS_4 : ModelConfig where
  modelId := "anthropic.claude-opus-4-20250514-v1:0"
  outputTokenBurndownRate := 5
  supportedEndpoints := [.crossRegion]
  regional := none
  crossRegion := some { tokenQuotaCode := some "L-29C2B0A3", requestQuotaCode := some "L-C99C7EF6" }
  globalCrossRegion := none

def ANTHROPIC_CLAUDE_OPUS_4_1 : ModelConfig where
  modelId := "anthropic.claude-opus-4-1-20250805-v1:0"
  outputTokenBurndownRate := 5
  supportedEndpoints := [.crossRegion]
  regional := none
  crossRegion := some { tokenQuotaCode := some "L-BD85BFCD", requestQuotaCode := some "L-7EC72A47" }
  globalCrossRegion := none

def ANTHROPIC_CLAUDE_OPUS_4_5 : ModelConfig where
  modelId := "anthropic.claude-opus-4-5-20251101-v1:0"
  outputTokenBurndownRate := 5
  supportedEndpoints := [.crossRegion, .globalCrossRegion]
  regional := none
  crossRegion := some { tokenQuotaCode := some "L-7007E9C9", requestQuotaCode := some "L-27989F42" }
  globalCrossRegion := some { tokenQuotaCode := some "L-3ABF6ACC", requestQuotaCode := some "L-58424D95" }

end UsWest2

/-- All model descriptors of the us-west-2 registry table, in declaration order. -/
def usWest2Models : List ModelConfig := [
  UsWest2.AMAZON_NOVA_MICRO_V1,
  UsWest2.AMAZON_NOVA_LITE_V1,
  UsWest2.AMAZON_NOVA_PRO_V1,
  UsWest2.AMAZON_NOVA_PREMIER_V1,
  UsWest2.AMAZON_NOVA_2_LITE_V1,
  UsWest2.ANTHROPIC_CLAUDE_3_HAIKU,
  UsWest2.ANTHROPIC_CLAUDE_3_5_SONNET_20240620,
  UsWest2.ANTHROPIC_CLAUDE_3_5_HAIKU,
  UsWest2.ANTHROPIC_CLAUDE_3_7_SONNET,
  UsWest2.ANTHROPIC_CLAUDE_HAIKU_4_5,
  UsWest2.ANTHROPIC_CLAUDE_SONNET_4,
  UsWest2.ANTHROPIC_CLAUDE_SONNET_4_5,
  UsWest2.ANTHROPIC_CLAUDE_OPUS_4,
  UsWest2.ANTHROPIC_CLAUDE_OPUS_4_1,
  UsWest2.ANTHROPIC_CLAUDE_OPUS_4_5
]

namespace UsEast1

def AMAZON_NOVA_MICRO_V1 : ModelConfig where
  modelId := "amazon.nova-micro-v1:0"
  outputTokenBurndownRate := 1
  supportedEndpoints := [.regional, .crossRegion]
  regional := some { tokenQuotaCode := some "L-CFA4FA0D", requestQuotaCode := some "L-E118F160" }
  crossRegion := some { tokenQuotaCode := some "L-DC7FF66C", requestQuotaCode := some "L-3F110E0F" }
  globalCrossRegion := none

def AMAZON_NOVA_LITE_V1 : ModelConfig where
  modelId := "amazon.nova-lite-v1:0"
  outputTokenBurndownRate := 1
  supportedEndpoints := [.regional, .crossRegion]
  regional := some { tokenQuotaCode := some "L-70423BF8", requestQuotaCode := some "L-E386A278" }
  crossRegion := some { tokenQuotaCode := some "L-7C42E72A", requestQuotaCode := some "L-89F8391A" }
  globalCrossRegion := none

def AMAZON_NOVA_PRO_V1 : ModelConfig where
  modelId := "amazon.nova-pro-v1:0"
  outputTokenBurndownRate := 1
  supportedEndpoints := [.regional, .crossRegion]
  regional := some { tokenQuotaCode := some "L-CE33604C", requestQuotaCode := some "L-F2717A44" }
  crossRegion := some { tokenQuotaCode := some "L-C0326783", requestQuotaCode := some "L-ED46B8C5" }
  globalCrossRegion := none

def AMAZON_NOVA_PREMIER_V1 : ModelConfig where
  modelId := "amazon.nova-premier-v1:0"
  outputTokenBurndownRate := 1
  supportedEndpoints := [.crossRegion]
  regional := none
  crossRegion := some { tokenQuotaCode := some "L-AA7FE948", requestQuotaCode := some "L-9AD981E7" }
  globalCrossRegion := none

def AMAZON_NOVA_2_LITE_V1 : ModelConfig where
  modelId := "amazon.nova-2-lite-v1:0"
  outputTokenBurndownRate := 1
  supportedEndpoints := [.crossRegion, .globalCrossRegion]
  regional := none
  crossRegion := some { tokenQuotaCode := some "L-C6F5908D", requestQuotaCode := some "L-F06F1187" }
  globalCrossRegion := some { tokenQuotaCode := some "L-71C69B70", requestQuotaCode := some "L-D5F39C2F" }

def AMAZON_NOVA_CANVAS_V1 : ModelConfig where
  modelId := "amazon.nova-canvas-v1:0"
  outputTokenBurndownRate := 1
  supportedEndpoints := [.regional]
  regional := some { tokenQuotaCode := none, requestQuotaCode := some "L-3F26CE29" }
  crossRegion := none
  globalCrossRegion := none

def ANTHROPIC_CLAUDE_3_HAIKU : ModelConfig where
  modelId := "anthropic.claude-3-haiku-20240307-v1:0"
  outputTokenBurndownRate := 1
  supportedEndpoints := [.regional, .crossRegion]
  regional := some { tokenQuotaCode := some "L-8CE99163", requestQuotaCode := some "L-2DC80978" }
  crossRegion := some { tokenQuotaCode := some "L-DCADBC78", requestQuotaCode := some "L-616A3F5B" }
  globalCrossRegion := none

def ANTHROPIC_CLAUDE_3_SONNET : ModelConfig where
  modelId := "anthropic.claude-3-sonnet-20240229-v1:0"
  outputTokenBurndownRate := 1
  supportedEndpoints := [.regional, .crossRegion]
  regional := some { tokenQuotaCode := some "L-4C35BB2A", requestQuotaCode := some "L-F406804E" }
  crossRegion := some { tokenQuotaCode := some "L-5DF13F64", requestQuotaCode := some "L-46591118" }
  globalCrossRegion := none

def ANTHROPIC_CLAUDE_3_OPUS : ModelConfig where
  modelId := "anthropic.claude-3-opus-20240229-v1:0"
  outputTokenBurndownRate := 1
  supportedEndpoints := [.regional, .crossRegion]
  regional := some { tokenQuotaCode := some "L-27477D78", requestQuotaCode := some "L-8050DFC8" }
  crossRegion := some { tokenQuotaCode := some "L-6C86825E", requestQuotaCode := some "L-EB15245D" }
  globalCrossRegion := none

def ANTHROPIC_CLAUDE_3_5_SONNET_20240620 : ModelConfig where
  modelId := "anthropic.claude-3-5-sonnet-20240620-v1:0"
  outputTokenBurndownRate := 1
  supportedEndpoints := [.regional, .crossRegion]
  regional := some { tokenQuotaCode := some "L-A50569E5", requestQuotaCode := some "L-254CACF4" }
  crossRegion := some { tokenQuotaCode := some "L-479B647F", requestQuotaCode := some "L-F457545D" }
  globalCrossRegion := none

def ANTHROPIC_CLAUDE_3_5_SONNET_20241022 : ModelConfig where
  modelId := "anthropic.claude-3-5-sonnet-20241022-v2:0"
  outputTokenBurndownRate := 1
  supportedEndpoints := [.regional, .crossRegion]
  regional := some { tokenQuotaCode := some "L-AD41C330", requestQuotaCode := some "L-79E773B3" }
  crossRegion := some { tokenQuotaCode := some "L-FF8B4E28", requestQuotaCode := some "L-1D3E59A3" }
  globalCrossRegion := none

def ANTHROPIC_CLAUDE_3_5_HAIKU : ModelConfig where
  modelId := "anthropic.claude-3-5-haiku-20241022-v1:0"
  outputTokenBurndownRate := 1
  supportedEndpoints := [.regional, .crossRegion]
  regional := some { tokenQuotaCode := some "L-7AB4ABDD", requestQuotaCode := some "L-C7438F8F" }
  crossRegion := some { tokenQuotaCode := some "L-4BF37C17", requestQuotaCode := some "L-252DF594" }
  globalCrossRegion := none

def ANTHROPIC_CLAUDE_3_7_SONNET : ModelConfig where
  modelId := "anthropic.claude-3-7-sonnet-20250219-v1:0"
  outputTokenBurndownRate := 5
  supportedEndpoints := [.crossRegion]
  regional := none
  crossRegion := some { tokenQuotaCode := some "L-6E888CC2", requestQuotaCode := some "L-3D8CC480" }
  globalCrossRegion := none

def ANTHROPIC_CLAUDE_HAIKU_4_5 : ModelConfig where
  modelId := "anthropic.claude-haiku-4-5-20251001-v1:0"
  outputTokenBurndownRate := 5
  supportedEndpoints := [.crossRegion, .globalCrossRegion]
  regional := none
  crossRegion := some { tokenQuotaCode := some "L-58BE175A", requestQuotaCode := some "L-CCA5DF70" }
  globalCrossRegion := some { tokenQuotaCode := some "L-9A11C666", requestQuotaCode := some "L-E5084BBA" }

def ANTHROPIC_CLAUDE_SONNET_4 : ModelConfig where
  modelId := "anthropic.claude-sonnet-4-20250514-v1:0"
  outputTokenBurndownRate := 5
  supportedEndpoints := [.crossRegion, .globalCrossRegion]
  regional := none
  crossRegion := some { tokenQuotaCode := some "L-59759B4A", requestQuotaCode := some "L-559DCC33" }
  globalCrossRegion := some { tokenQuotaCode := some "L-97E41E39", requestQuotaCode := some "L-C63AA5DA" }

def ANTHROPIC_CLAUDE_SONNET_4_5 : ModelConfig where
  modelId := "anthropic.claude-sonnet-4-5-20250929-v1:0"
  outputTokenBurndownRate := 5
  supportedEndpoints := [.crossRegion, .globalCrossRegion]
  regional := none
  crossRegion := some { tokenQuotaCode := some "L-F4DDD3EB", requestQuotaCode := some "L-4A6BFAB1" }
  globalCrossRegion := some { tokenQuotaCode := some "L-27C57EE8", requestQuotaCode := some "L-DB84CE56" }

def ANTHROPIC_CLAUDE_SONNET_4_6 : ModelConfig where
  modelId := "anthropic.claude-sonnet-4-6"
  outputTokenBurndownRate := 5
  supportedEndpoints := [.crossRegion, .globalCrossRegion]
  regional := none
  crossRegion := some { tokenQuotaCode := some "L-15B8E632", requestQuotaCode := some "L-00FF3314" }
  globalCrossRegion := some { tokenQuotaCode := some "L-7BEE40FB", requestQuotaCode := some "L-F6E116D7" }

def ANTHROPIC_CLAUDE_SONNET_4_6_1M : ModelConfig where
  modelId := "anthropic.claude-sonnet-4-6"
  outputTokenBurndownRate := 5
  supportedEndpoints := [.crossRegion, .globalCrossRegion]
  regional := none
  crossRegion := some { tokenQuotaCode := some "L-CE512C9A", requestQuotaCode := some "L-47DE5258" }
  globalCrossRegion := some { tokenQuotaCode := some "L-6955C77B", requestQuotaCode := some "L-B117CDDA" }

def ANTHROPIC_CLAUDE_OPUS_4 : ModelConfig where
  modelId := "anthropic.claude-opus-4-20250514-v1:0"
  outputTokenBurndownRate := 5
  supportedEndpoints := [.crossRegion]
  regional := none
  crossRegion := some { tokenQuotaCode := some "L-29C2B0A3", requestQuotaCode := some "L-C99C7EF6" }
  globalCrossRegion := none

def ANTHROPIC_CLAUDE_OPUS_4_1 : ModelConfig where
  modelId := "anthropic.claude-opus-4-1-20250805-v1:0"
  outputTokenBurndownRate := 5
  supportedEndpoints := [.crossRegion]
  regional := none
  crossRegion := some { tokenQuotaCode := some "L-BD85BFCD", requestQuotaCode := some "L-7EC72A47" }
  globalCrossRegion := none

def ANTHROPIC_CLAUDE_OPUS_4_5 : ModelConfig where
  modelId := "anthropic.claude-opus-4-5-20251101-v1:0"
  outputTokenBurndownRate := 5
  supportedEndpoints := [.crossRegion, .globalCrossRegion]
  regional := none
  crossRegion := some { tokenQuotaCode := some "L-7007E9C9", requestQuotaCode := some "L-27989F42" }
  globalCrossRegion := some { tokenQuotaCode := some "L-3ABF6ACC", requestQuotaCode := some "L-58424D95" }

def ANTHROPIC_CLAUDE_OPUS_4_6 : ModelConfig where
  modelId := "anthropic.claude-opus-4-6-v1"
  outputTokenBurndownRate := 5
  supportedEndpoints := [.crossRegion, .globalCrossRegion]
  regional := none
  crossRegion := some { tokenQuotaCode := some "L-0AD9BBE8", requestQuotaCode := some "L-11DFF789" }
  globalCrossRegion := some { tokenQuotaCode := some "L-3DCCFAA4", requestQuotaCode := some "L-3DD46812" }

def ANTHROPIC_CLAUDE_OPUS_4_6_1M : ModelConfig where
  modelId := "anthropic.claude-opus-4-6-v1"
  outputTokenBurndownRate := 5
  supportedEndpoints := [.crossRegion, .globalCrossRegion]
  regional := none
  crossRegion := some { tokenQuotaCode := some "L-7DBBE6A1", requestQuotaCode := some "L-410BCACA" }
  globalCrossRegion := some { tokenQuotaCode := some "L-4C59C1F4", requestQuotaCode := some "L-CDA5906C" }

def META_LLAMA3_8B_INSTRUCT : ModelConfig where
  modelId := "meta.llama3-8b-instruct-v1:0"
  outputTokenBurndownRate := 1
  supportedEndpoints := [.regional]
  regional := some { tokenQuotaCode := some "L-03A9B835", requestQuotaCode := some "L-320BEFEB" }
  crossRegion := none
  globalCrossRegion := none

def META_LLAMA3_70B_INSTRUCT : ModelConfig where
  modelId := "meta.llama3-70b-instruct-v1:0"
  outputTokenBurndownRate := 1
  supportedEndpoints := [.regional]
  regional := some { tokenQuotaCode := some "L-609E24B0", requestQuotaCode := some "L-46D383AF" }
  crossRegion := none
  globalCrossRegion := none

def META_LLAMA3_2_1B_INSTRUCT : ModelConfig where
  modelId := "meta.llama3-2-1b-instruct-v1:0"
  outputTokenBurndownRate := 1
  supportedEndpoints := [.regional, .crossRegion]
  regional := some { tokenQuotaCode := some "L-6F14193C", requestQuotaCode := some "L-20CFCD61" }
  crossRegion := some { tokenQuotaCode := some "L-BD9FDA6F", requestQuotaCode := some "L-A31D2B40" }
  globalCrossRegion := none

def META_LLAMA3_2_3B_INSTRUCT : ModelConfig where
  modelId := "meta.llama3-2-3b-instruct-v1:0"
  outputTokenBurndownRate := 1
  supportedEndpoints := [.regional, .crossRegion]
  regional := some { tokenQuotaCode := some "L-A7EDC29B", requestQuotaCode := some "L-2F9B4FC2" }
  crossRegion := some { tokenQuotaCode := some "L-0B2687F4", requestQuotaCode := some "L-6B0A9FAD" }
  globalCrossRegion := none

def META_LLAMA3_2_11B_INSTRUCT : ModelConfig where
  modelId := "meta.llama3-2-11b-instruct-v1:0"
  outputTokenBurndownRate := 1
  supportedEndpoints := [.regional]
  regional := some { tokenQuotaCode := some "L-E2D0B19E", requestQuotaCode := some "L-53CCF898" }
  crossRegion := none
  globalCrossRegion := none

def META_LLAMA3_2_90B_INSTRUCT : ModelConfig where
  modelId := "meta.llama3-2-90b-instruct-v1:0"
  outputTokenBurndownRate := 1
  supportedEndpoints := [.regional]
  regional := some { tokenQuotaCode := some "L-41C63FF8", requestQuotaCode := some "L-EBDED838" }
  crossRegion := none
  globalCrossRegion := none

def META_LLAMA3_1_8B_INSTRUCT : ModelConfig where
  modelId := "meta.llama3-1-8b-instruct-v1:0"
  outputTokenBurndownRate := 1
  supportedEndpoints := [.regional, .crossRegion]
  regional := some { tokenQuotaCode := some "L-9E79C230", requestQuotaCode := some "L-19A2ED6C" }
  crossRegion := some { tokenQuotaCode := some "L-9782749C", requestQuotaCode := some "L-396C5302" }
  globalCrossRegion := none

def META_LLAMA3_1_70B_INSTRUCT : ModelConfig where
  modelId := "meta.llama3-1-70b-instruct-v1:0"
  outputTokenBurndownRate := 1
  supportedEndpoints := [.regional, .crossRegion]
  regional := some { tokenQuotaCode := some "L-48E55E59", requestQuotaCode := some "L-ECA5B974" }
  crossRegion := some { tokenQuotaCode := some "L-92E68994", requestQuotaCode := some "L-29644EB3" }
  globalCrossRegion := none

def META_LLAMA3_3_70B_INSTRUCT : ModelConfig where
  modelId := "meta.llama3-3-70b-instruct-v1:0"
  outputTokenBurndownRate := 1
  supportedEndpoints := [.crossRegion]
  regional := none
  crossRegion := some { tokenQuotaCode := some "L-0E7AA8B7", requestQuotaCode := some "L-DEDE703C" }
  globalCrossRegion := none

def META_LLAMA4_SCOUT_17B_INSTRUCT : ModelConfig where
  modelId := "meta.llama4-scout-17b-instruct-v1:0"
  outputTokenBurndownRate := 1
  supportedEndpoints := [.crossRegion]
  regional := none
  crossRegion := some { tokenQuotaCode := some "L-532E6630", requestQuotaCode := some "L-751B753A" }
  globalCrossRegion := none

def META_LLAMA4_MAVERICK_17B_INSTRUCT : ModelConfig where
  modelId := "meta.llama4-maverick-17b-instruct-v1:0"
  outputTokenBurndownRate := 1
  supportedEndpoints := [.crossRegion]
  regional := none
  crossRegion := some { tokenQuotaCode := some "L-DE3FBBF4", requestQuotaCode := some "L-4F18EF2F" }
  globalCrossRegion := none

def MISTRAL_MISTRAL_7B_INSTRUCT : ModelConfig where
  modelId := "mistral.mistral-7b-instruct-v0:2"
  outputTokenBurndownRate := 1
  supportedEndpoints := [.regional]
  regional := some { tokenQuotaCode := some "L-02D831F1", requestQuotaCode := some "L-D9A35062" }
  crossRegion := none
  globalCrossRegion := none

def MISTRAL_MISTRAL_SMALL_2402 : ModelConfig where
  modelId := "mistral.mistral-small-2402-v1:0"
  outputTokenBurndownRate := 1
  supportedEndpoints := [.regional]
  regional := some { tokenQuotaCode := some "L-82C15FA8", requestQuotaCode := some "L-1CBB0490" }
  crossRegion := none
  globalCrossRegion := none

def MISTRAL_MISTRAL_LARGE_2402 : ModelConfig where
  modelId := "mistral.mistral-large-2402-v1:0"
  outputTokenBurndownRate := 1
  supportedEndpoints := [.regional]
  regional := some { tokenQuotaCode := some "L-01447289", requestQuotaCode := some "L-3AF844DB" }
  crossRegion := none
  globalCrossRegion := none

def MISTRAL_MISTRAL_LARGE_2407 : ModelConfig where
  modelId := "mistral.mistral-large-2407-v1:0"
  outputTokenBurndownRate := 1
  supportedEndpoints := [.regional]
  regional := some { tokenQuotaCode := some "L-01447289", requestQuotaCode := some "L-3AF844DB" }
  crossRegion := none
  globalCrossRegion := none

def MISTRAL_MISTRAL_LARGE_3 : ModelConfig where
  modelId := "mistral.mistral-large-3-675b-instruct"
  outputTokenBurndownRate := 1
  supportedEndpoints := [.regional]
  regional := some { tokenQuotaCode := some "L-C709F563", requestQuotaCode := some "L-5B274E24" }
  crossRegion := none
  globalCrossRegion := none

def MISTRAL_MINISTRAL_3B : ModelConfig where
  modelId := "mistral.ministral-3-3b-instruct"
  outputTokenBurndownRate := 1
  supportedEndpoints := [.regional]
  regional := some { tokenQuotaCode := some "L-8A4BEE90", requestQuotaCode := some "L-DCA37E91" }
  crossRegion := none
  globalCrossRegion := none

def MISTRAL_MINISTRAL_8B : ModelConfig where
  modelId := "mistral.ministral-3-8b-instruct"
  outputTokenBurndownRate := 1
  supportedEndpoints := [.regional]
  regional := some { tokenQuotaCode := some "L-3B98F300", requestQuotaCode := some "L-2BDF9A55" }
  crossRegion := none
  globalCrossRegion := none

def MISTRAL_MINISTRAL_14B : ModelConfig where
  modelId := "mistral.ministral-3-14b-instruct"
  outputTokenBurndownRate := 1
  supportedEndpoints := [.regional]
  regional := some { tokenQuotaCode := some "L-334E5409", requestQuotaCode := some "L-99F7BDBC" }
  crossRegion := none
  globalCrossRegion := none

def MISTRAL_VOXTRAL_MINI : ModelConfig where
  modelId := "mistral.voxtral-mini-3b-2507"
  outputTokenBurndownRate := 1
  supportedEndpoints := [.regional]
  regional := some { tokenQuotaCode := some "L-0B767044", requestQuotaCode := some "L-17AE85BD" }
  crossRegion := none
  globalCrossRegion := none

def MISTRAL_VOXTRAL_SMALL : ModelConfig where
  modelId := "mistral.voxtral-small-24b-2507"
  outputTokenBurndownRate := 1
  supportedEndpoints := [.regional]
  regional := some { tokenQuotaCode := some "L-930E2896", requestQuotaCode := some "L-ACB2FB6A" }
  crossRegion := none
  globalCrossRegion := none

def COHERE_COMMAND_R : ModelConfig where
  modelId := "cohere.command-r-v1:0"
  outputTokenBurndownRate := 1
  supportedEndpoints := [.regional]
  regional := some { tokenQuotaCode := some "L-17F95AA4", requestQuotaCode := some "L-A49CA90F" }
  crossRegion := none
  globalCrossRegion := none

def COHERE_COMMAND_R_PLUS : ModelConfig where
  modelId := "cohere.command-r-plus-v1:0"
  outputTokenBurndownRate := 1
  supportedEndpoints := [.regional]
  regional := some { tokenQuotaCode := some "L-FEE1DCB6", requestQuotaCode := some "L-ADB4B3D7" }
  crossRegion := none
  globalCrossRegion := none

def COHERE_EMBED_ENGLISH_V3 : ModelConfig where
  modelId := "cohere.embed-english-v3"
  outputTokenBurndownRate := 1
  supportedEndpoints := [.regional]
  regional := some { tokenQuotaCode := some "L-A2BE277A", requestQuotaCode := some "L-FF8E7864" }
  crossRegion := none
  globalCrossRegion := none

def COHERE_EMBED_MULTILINGUAL_V3 : ModelConfig where
  modelId := "cohere.embed-multilingual-v3"
  outputTokenBurndownRate := 1
  supportedEndpoints := [.regional]
  regional := some { tokenQuotaCode := some "L-C2F86908", requestQuotaCode := some "L-9E5BD0C6" }
  crossRegion := none
  globalCrossRegion := none

def COHERE_EMBED_V4 : ModelConfig where
  modelId := "cohere.embed-v4:0"
  outputTokenBurndownRate := 1
  supportedEndpoints := [.regional, .crossRegion, .globalCrossRegion]
  regional := some { tokenQuotaCode := some "L-C47B85D5", requestQuotaCode := some "L-BE5FD99B" }
  crossRegion := some { tokenQuotaCode := some "L-4C3F0FE6", requestQuotaCode := some "L-EB8C1F30" }
  globalCrossRegion := some { tokenQuotaCode := some "L-02DFBB76", requestQuotaCode := some "L-7089DC7D" }

def AI21_JAMBA_1_5_LARGE : ModelConfig where
  modelId := "ai21.jamba-1-5-large-v1:0"
  outputTokenBurndownRate := 1
  supportedEndpoints := [.regional]
  regional := some { tokenQuotaCode := some "L-CFAB19FF", requestQuotaCode := some "L-F4CAA0FD" }
  crossRegion := none
  globalCrossRegion := none

def AI21_JAMBA_1_5_MINI : ModelConfig where
  modelId := "ai21.jamba-1-5-mini-v1:0"
  outputTokenBurndownRate := 1
  supportedEndpoints := [.regional]
  regional := some { tokenQuotaCode := some "L-5A778346", requestQuotaCode := some "L-0449ADC5" }
  crossRegion := none
  globalCrossRegion := none

def DEEPSEEK_DEEPSEEK_R1 : ModelConfig where
  modelId := "deepseek.r1-v1:0"
  outputTokenBurndownRate := 1
  supportedEndpoints := [.crossRegion]
  regional := none
  crossRegion := some { tokenQuotaCode := some "L-06B03968", requestQuotaCode := some "L-F52323AB" }
  globalCrossRegion := none

def QWEN_QWEN3_NEXT_80B : ModelConfig where
  modelId := "qwen.qwen3-next-80b-a3b"
  outputTokenBurndownRate := 1
  supportedEndpoints := [.regional]
  regional := some { tokenQuotaCode := some "L-37AB702E", requestQuotaCode := some "L-07B3CEEA" }
  crossRegion := none
  globalCrossRegion := none

def QWEN_QWEN3_32B : ModelConfig where
  modelId := "qwen.qwen3-32b-v1:0"
  outputTokenBurndownRate := 1
  supportedEndpoints := [.regional]
  regional := some { tokenQuotaCode := some "L-B7C52139", requestQuotaCode := some "L-E880C759" }
  crossRegion := none
  globalCrossRegion := none

def QWEN_QWEN3_CODER_30B : ModelConfig where
  modelId := "qwen.qwen3-coder-480b-a35b-v1:0"
  outputTokenBurndownRate := 1
  supportedEndpoints := [.regional]
  regional := some { tokenQuotaCode := some "L-92F81E14", requestQuotaCode := some "L-66EE6E0B" }
  crossRegion := none
  globalCrossRegion := none

def QWEN_QWEN3_VL_235B : ModelConfig where
  modelId := "qwen.qwen3-235b-a22b-2507-v1:0"
  outputTokenBurndownRate := 1
  supportedEndpoints := [.regional]
  regional := some { tokenQuotaCode := some "L-46063925", requestQuotaCode := some "L-11B56FB0" }
  crossRegion := none
  globalCrossRegion := none

def GOOGLE_GEMMA_3_4B : ModelConfig where
  modelId := "google.gemma-3-4b-it"
  outputTokenBurndownRate := 1
  supportedEndpoints := [.regional]
  regional := some { tokenQuotaCode := some "L-73FB8466", requestQuotaCode := some "L-3056DF33" }
  crossRegion := none
  globalCrossRegion := none

def GOOGLE_GEMMA_3_12B : ModelConfig where
  modelId := "google.gemma-3-12b-it"
  outputTokenBurndownRate := 1
  supportedEndpoints := [.regional]
  regional := some { tokenQuotaCode := some "L-3FD4A73E", requestQuotaCode := some "L-999037CA" }
  crossRegion := none
  globalCrossRegion := none

def GOOGLE_GEMMA_3_27B : ModelConfig where
  modelId := "google.gemma-3-27b-it"
  outputTokenBurndownRate := 1
  supportedEndpoints := [.regional]
  regional := some { tokenQuotaCode := some "L-F8729E94", requestQuotaCode := some "L-5D46C7AF" }
  crossRegion := none
  globalCrossRegion := none

def NVIDIA_NEMOTRON_NANO_2 : ModelConfig where
  modelId := "nvidia.nemotron-nano-9b-v2"
  outputTokenBurndownRate := 1
  supportedEndpoints := [.regional]
  regional := some { tokenQuotaCode := some "L-33D3627D", requestQuotaCode := some "L-AC7B3FB9" }
  crossRegion := none
  globalCrossRegion := none

def NVIDIA_NEMOTRON_NANO_2_VL : ModelConfig where
  modelId := "nvidia.nemotron-nano-12b-v2"
  outputTokenBurndownRate := 1
  supportedEndpoints := [.regional]
  regional := some { tokenQuotaCode := some "L-A05A5476", requestQuotaCode := some "L-30B384EA" }
  crossRegion := none
  globalCrossRegion := none

def OPENAI_GPT_OSS_20B : ModelConfig where
  modelId := "openai.gpt-oss-20b-1:0"
  outputTokenBurndownRate := 1
  supportedEndpoints := [.regional]
  regional := some { tokenQuotaCode := some "L-036E14D8", requestQuotaCode := some "L-AF7F0545" }
  crossRegion := none
  globalCrossRegion := none

def OPENAI_GPT_OSS_120B : ModelConfig where
  modelId := "openai.gpt-oss-120b-1:0"
  outputTokenBurndownRate := 1
  supportedEndpoints := [.regional]
  regional := some { tokenQuotaCode := some "L-9DC5F595", requestQuotaCode := some "L-25B50707" }
  crossRegion := none
  globalCrossRegion := none

def OPENAI_GPT_OSS_SAFEGUARD_20B : ModelConfig where
  modelId := "openai.gpt-oss-safeguard-20b"
  outputTokenBurndownRate := 1
  supportedEndpoints := [.regional]
  regional := some { tokenQuotaCode := some "L-5D8F2F54", requestQuotaCode := some "L-65833D55" }
  crossRegion := none
  globalCrossRegion := none

def OPENAI_GPT_OSS_SAFEGUARD_120B : ModelConfig where
  modelId := "openai.gpt-oss-safeguard-120b"
  outputTokenBurndownRate := 1
  supportedEndpoints := [.regional]
  regional := some { tokenQuotaCode := some "L-594C7AC9", requestQuotaCode := some "L-C4E013EF" }
  crossRegion := none
  globalCrossRegion := none

def KIMI_K2_THINKING : ModelConfig where
  modelId := "moonshot.kimi-k2-thinking"
  outputTokenBurndownRate := 1
  supportedEndpoints := [.regional]
  regional := some { tokenQuotaCode := some "L-03579AC2", requestQuotaCode := some "L-02572418" }
  crossRegion := none
  globalCrossRegion := none

def MINIMAX_M2 : ModelConfig where
  modelId := "minimax.minimax-m2"
  outputTokenBurndownRate := 1
  supportedEndpoints := [.regional]
  regional := some { tokenQuotaCode := some "L-A81B7C40", requestQuotaCode := some "L-828C986E" }
  crossRegion := none
  globalCrossRegion := none

end UsEast1

/-- All model descriptors of the us-east-1 registry table, in declaration order. -/
def usEast1Models : List ModelConfig := [
  UsEast1.AMAZON_NOVA_MICRO_V1,
  UsEast1.AMAZON_NOVA_LITE_V1,
  UsEast1.AMAZON_NOVA_PRO_V1,
  UsEast1.AMAZON_NOVA_PREMIER_V1,
  UsEast1.AMAZON_NOVA_2_LITE_V1,
  UsEast1.AMAZON_NOVA_CANVAS_V1,
  UsEast1.ANTHROPIC_CLAUDE_3_HAIKU,
  UsEast1.ANTHROPIC_CLAUDE_3_SONNET,
  UsEast1.ANTHROPIC_CLAUDE_3_OPUS,
  UsEast1.ANTHROPIC_CLAUDE_3_5_SONNET_20240620,
  UsEast1.ANTHROPIC_CLAUDE_3_5_SONNET_20241022,
  UsEast1.ANTHROPIC_CLAUDE_3_5_HAIKU,
  UsEast1.ANTHROPIC_CLAUDE_3_7_SONNET,
  UsEast1.ANTHROPIC_CLAUDE_HAIKU_4_5,
  UsEast1.ANTHROPIC_CLAUDE_SONNET_4,
  UsEast1.ANTHROPIC_CLAUDE_SONNET_4_5,
  UsEast1.ANTHROPIC_CLAUDE_SONNET_4_6,
  UsEast1.ANTHROPIC_CLAUDE_SONNET_4_6_1M,
  UsEast1.ANTHROPIC_CLAUDE_OPUS_4,
  UsEast1.ANTHROPIC_CLAUDE_OPUS_4_1,
  UsEast1.ANTHROPIC_CLAUDE_OPUS_4_5,
  UsEast1.ANTHROPIC_CLAUDE_OPUS_4_6,
  UsEast1.ANTHROPIC_CLAUDE_OPUS_4_6_1M,
  UsEast1.META_LLAMA3_8B_INSTRUCT,
  UsEast1.META_LLAMA3_70B_INSTRUCT,
  UsEast1.META_LLAMA3_2_1B_INSTRUCT,
  UsEast1.META_LLAMA3_2_3B_INSTRUCT,
  UsEast1.META_LLAMA3_2_11B_INSTRUCT,
  UsEast1.META_LLAMA3_2_90B_INSTRUCT,
  UsEast1.META_LLAMA3_1_8B_INSTRUCT,
  UsEast1.META_LLAMA3_1_70B_INSTRUCT,
  UsEast1.META_LLAMA3_3_70B_INSTRUCT,
  UsEast1.META_LLAMA4_SCOUT_17B_INSTRUCT,
  UsEast1.META_LLAMA4_MAVERICK_17B_INSTRUCT,
  UsEast1.MISTRAL_MISTRAL_7B_INSTRUCT,
  UsEast1.MISTRAL_MISTRAL_SMALL_2402,
  UsEast1.MISTRAL_MISTRAL_LARGE_2402,
  UsEast1.MISTRAL_MISTRAL_LARGE_2407,
  UsEast1.MISTRAL_MISTRAL_LARGE_3,
  UsEast1.MISTRAL_MINISTRAL_3B,
  UsEast1.MISTRAL_MINISTRAL_8B,
  UsEast1.MISTRAL_MINISTRAL_14B,
  UsEast1.MISTRAL_VOXTRAL_MINI,
  UsEast1.MISTRAL_VOXTRAL_SMALL,
  UsEast1.COHERE_COMMAND_R,
  UsEast1.COHERE_COMMAND_R_PLUS,
  UsEast1.COHERE_EMBED_ENGLISH_V3,
  UsEast1.COHERE_EMBED_MULTILINGUAL_V3,
  UsEast1.COHERE_EMBED_V4,
  UsEast1.AI21_JAMBA_1_5_LARGE,
  UsEast1.AI21_JAMBA_1_5_MINI,
  UsEast1.DEEPSEEK_DEEPSEEK_R1,
  UsEast1.QWEN_QWEN3_NEXT_80B,
  UsEast1.QWEN_QWEN3_32B,
  UsEast1.QWEN_QWEN3_CODER_30B,
  UsEast1.QWEN_QWEN3_VL_235B,
  UsEast1.GOOGLE_GEMMA_3_4B,
  UsEast1.GOOGLE_GEMMA_3_12B,
  UsEast1.GOOGLE_GEMMA_3_27B,
  UsEast1.NVIDIA_NEMOTRON_NANO_2,
  UsEast1.NVIDIA_NEMOTRON_NANO_2_VL,
  UsEast1.OPENAI_GPT_OSS_20B,
  UsEast1.OPENAI_GPT_OSS_120B,
  UsEast1.OPENAI_GPT_OSS_SAFEGUARD_20B,
  UsEast1.OPENAI_GPT_OSS_SAFEGUARD_120B,
  UsEast1.KIMI_K2_THINKING,
  UsEast1.MINIMAX_M2
]

/-- `DashboardConfig` from `lib/cdk-quota-dashboards-stack.ts`: a model
config, a chosen endpoint type, and the optional list of application
inference profile ids (the TypeScript optional field is embedded as a
list, `[]` for absent; an absent field and an empty array both make
`hasApplicationProfiles` false in the source). -/
structure DashboardConfig where
  modelConfig : ModelConfig
  endpointType : EndpointType
  applicationProfileIds : List String := []
deriving DecidableEq

/-- The error message `validateAllDashboardConfigs` pushes for one invalid
configuration (the source wraps the model id and endpoint type in single
quotes, omitted here). -/
def configErrorMessage (index : Nat) (config : DashboardConfig) : String :=
  if (getSupportedEndpointTypes config.modelConfig).length = 0 then
    "Config " ++ toString index ++ ": Model " ++ config.modelConfig.modelId ++
      " not found in quota registry"
  else
    "Config " ++ toString index ++ ": Model " ++ config.modelConfig.modelId ++
      " does not support endpoint type " ++ endpointTypeName config.endpointType ++
      ". Supported types: " ++
      String.intercalate ", "
        ((getSupportedEndpointTypes config.modelConfig).map endpointTypeName)

/-- The `configs.forEach((config, index) => ...)` loop of
`validateAllDashboardConfigs`, carrying the running index: an error
message is appended for every configuration whose endpoint type the model
does not support. -/
def configErrorsFrom (index : Nat) : List DashboardConfig → List String
  | [] => []
  | config :: rest =>
    if validateModelEndpointSupport config.modelConfig config.endpointType then
      configErrorsFrom (index + 1) rest
    else
      configErrorMessage index config :: configErrorsFrom (index + 1) rest

/-- The complete `errors` array collected by `validateAllDashboardConfigs`. -/
def configErrors (configs : List DashboardConfig) : List String :=
  configErrorsFrom 0 configs

/-- The single aggregated message of the error thrown when at least one
configuration is invalid. -/
def invalidConfigsMessage (errors : List String) : String :=
  "Invalid dashboard configurations found:\n" ++ String.intercalate "\n" errors ++
    "\n\nPlease check the quota mappings in the region-specific registry file for valid model/endpoint combinations."

/-- `validateAllDashboardConfigs` from `lib/cdk-quota-dashboards-stack.ts`:
collect one error message per invalid configuration and throw a single
`Error` carrying all of them when the list is non-empty. -/
def validateAllDashboardConfigs (configs : List DashboardConfig) : Except String Unit :=
  let errors := configErrors configs
  if errors.length > 0 then
    Except.error (invalidConfigsMessage errors)
  else
    Except.ok ()

/-- `getFullModelId` from `lib/cdk-quota-dashboards-stack.ts`: the model
identity string used as the ModelId metric dimension, prefixed according
to the endpoint type. -/
def getFullModelId (modelConfig : ModelConfig) (endpointType : EndpointType) : String :=
  match endpointType with
  | .regional => modelConfig.modelId
  | .crossRegion => "us." ++ modelConfig.modelId
  | .globalCrossRegion => "global." ++ modelConfig.modelId

/-- A CloudWatch metric as the stack constructs it: namespace, metric
name, the ModelId dimension, the statistic and the period (in minutes);
`label` carries the display label when the source sets one. -/
structure Metric where
  nameSpace : String
  metricName : String
  modelIdDim : String
  statistic : String
  periodMinutes : Nat
  label : Option String := none
deriving DecidableEq

/-- A metric-math expression tree mirroring the expression string the
stack builds: `v` is a single variable reference, `sumOf` a list of
variables joined by plus signs, `add` the sum of two parenthesised
sub-expressions, `mulC` multiplication by the burndown-rate constant, and
`fillRepeat` the `FILL(v, REPEAT)` forward-fill of a sparse series. -/
inductive MExpr
  | v (key : String)
  | sumOf (keys : List String)
  | add (a b : MExpr)
  | mulC (a : MExpr) (rate : Nat)
  | fillRepeat (key : String)
deriving DecidableEq

/-- The value CloudWatch metric math computes for an expression on a time
bucket in which every referenced series has a value: `env` gives each
variable its series value on that bucket (`FILL(v, REPEAT)` equals `v`
wherever `v` has a value). -/
def evalExpr (env : String → Nat) : MExpr → Nat
  | .v key => env key
  | .sumOf keys => (keys.map env).sum
  | .add a b => evalExpr env a + evalExpr env b
  | .mulC a rate => evalExpr env a * rate
  | .fillRepeat key => env key

/-- A `cloudwatch.MathExpression` as the stack constructs it: the
expression, the `usingMetrics` bindings in insertion order, the label and
the period. -/
structure MathExpression where
  expression : MExpr
  usingMetrics : List (String × Metric)
  label : String
  periodMinutes : Nat
deriving DecidableEq

/-- `cloudwatch.IMetric`: either a plain metric or a math expression. -/
inductive IMetric
  | metric (m : Metric)
  | mathExpression (e : MathExpression)
deriving DecidableEq

/-- The five per-profile usage metrics of `createProfileMetrics` in
`lib/cdk-quota-dashboards-stack.ts`. -/
structure ProfileMetrics where
  inputTokens : Metric
  cacheWriteTokens : Metric
  outputTokens : Metric
  maxTokens : Metric
  invocations : Metric
deriving DecidableEq

/-- `createProfileMetrics` from `lib/cdk-quota-dashboards-stack.ts`: the
four AWS/Bedrock usage counters and the externally published
Bedrock/Quotas MaxTokens counter for one profile id, each under the Sum
statistic with a one-minute period. -/
def createProfileMetrics (profileId : String) : ProfileMetrics where
  inputTokens :=
    { nameSpace := "AWS/Bedrock", metricName := "InputTokenCount",
      modelIdDim := profileId, statistic := "Sum", periodMinutes := 1 }
  cacheWriteTokens :=
    { nameSpace := "AWS/Bedrock", metricName := "CacheWriteInputTokenCount",
      modelIdDim := profileId, statistic := "Sum", periodMinutes := 1 }
  outputTokens :=
    { nameSpace := "AWS/Bedrock", metricName := "OutputTokenCount",
      modelIdDim := profileId, statistic := "Sum", periodMinutes := 1 }
  maxTokens :=
    { nameSpace := "Bedrock/Quotas", metricName := "MaxTokens",
      modelIdDim := profileId, statistic := "Sum", periodMinutes := 1 }
  invocations :=
    { nameSpace := "AWS/Bedrock", metricName := "Invocations",
      modelIdDim := profileId, statistic := "Sum", periodMinutes := 1 }

/-- The TokenQuota limit metric of one dashboard entry. -/
def tokenQuotaMetric (fullModelId : String) : Metric :=
  { nameSpace := "Bedrock/Quotas", metricName := "TokenQuota",
    modelIdDim := fullModelId, statistic := "Maximum", periodMinutes := 1,
    label := some "Quota Limit" }

/-- The RequestQuota limit metric of one dashboard entry. -/
def requestQuotaMetric (fullModelId : String) : Metric :=
  { nameSpace := "Bedrock/Quotas", metricName := "RequestQuota",
    modelIdDim := fullModelId, statistic := "Maximum", periodMinutes := 1,
    label := some "Quota Limit" }

/-- The `FILL(tokenQuota, REPEAT)` reference line of one entry. -/
def tokenQuotaLine (fullModelId : String) : MathExpression :=
  { expression := .fillRepeat "tokenQuota",
    usingMetrics := [("tokenQuota", tokenQuotaMetric fullModelId)],
    label := "Quota Limit (Tokens)", periodMinutes := 1 }

/-- The `FILL(requestQuota, REPEAT)` reference line of one entry. -/
def requestQuotaLine (fullModelId : String) : MathExpression :=
  { expression := .fillRepeat "requestQuota",
    usingMetrics := [("requestQuota", requestQuotaMetric fullModelId)],
    label := "Quota Limit (Requests)", periodMinutes := 1 }

/-- The metric-variable suffix of profile `index` in the aggregated
expressions: empty for the primary profile, `_index` for auxiliaries. -/
def suffixFor (index : Nat) : String :=
  if index = 0 then "" else "_" ++ toString index

/-- Key of the input-token variable of profile `index`. -/
def inputKeyAt (index : Nat) : String := "inputTokens" ++ suffixFor index

/-- Key of the cache-write-token variable of profile `index`. -/
def cacheKeyAt (index : Nat) : String := "cacheWriteTokens" ++ suffixFor index

/-- Key of the output-token variable of profile `index`. -/
def outputKeyAt (index : Nat) : String := "outputTokens" ++ suffixFor index

/-- Key of the max-tokens variable of profile `index`. -/
def maxKeyAt (index : Nat) : String := "maxTokens" ++ suffixFor index

/-- Key of the invocations variable of profile `index`. -/
def invKeyAt (index : Nat) : String := "invocations" ++ suffixFor index

/-- The five `usingMetrics` bindings one profile contributes, in the
order the source inserts them. -/
def profileMetricEntries (index : Nat) (profileId : String) : List (String × Metric) :=
  [(inputKeyAt index, (createProfileMetrics profileId).inputTokens),
   (cacheKeyAt index, (createProfileMetrics profileId).cacheWriteTokens),
   (outputKeyAt index, (createProfileMetrics profileId).outputTokens),
   (maxKeyAt index, (createProfileMetrics profileId).maxTokens),
   (invKeyAt index, (createProfileMetrics profileId).invocations)]

/-- The `usingMetrics` record built by the
`allProfileMetrics.forEach` loop, with the running profile index. -/
def aggUsingMetricsFrom (index : Nat) : List String → List (String × Metric)
  | [] => []
  | profileId :: rest => profileMetricEntries index profileId ++ aggUsingMetricsFrom (index + 1) rest

/-- `usingMetrics` for a whole profile-id list. -/
def aggUsingMetrics (profileIds : List String) : List (String × Metric) :=
  aggUsingMetricsFrom 0 profileIds

/-- The `inputParts` array, with the running profile index. -/
def inputPartsFrom (index : Nat) : List String → List String
  | [] => []
  | _ :: rest => inputKeyAt index :: inputPartsFrom (index + 1) rest

/-- The `cacheParts` array, with the running profile index. -/
def cachePartsFrom (index : Nat) : List String → List String
  | [] => []
  | _ :: rest => cacheKeyAt index :: cachePartsFrom (index + 1) rest

/-- The `outputParts` array, with the running profile index. -/
def outputPartsFrom (index : Nat) : List String → List String
  | [] => []
  | _ :: rest => outputKeyAt index :: outputPartsFrom (index + 1) rest

/-- The `maxTokensParts` array, with the running profile index. -/
def maxPartsFrom (index : Nat) : List String → List String
  | [] => []
  | _ :: rest => maxKeyAt index :: maxPartsFrom (index + 1) rest

/-- The `invocationParts` array, with the running profile index. -/
def invPartsFrom (index : Nat) : List String → List String
  | [] => []
  | _ :: rest => invKeyAt index :: invPartsFrom (index + 1) rest

/-- The aggregated Actual Consumption `MathExpression`
`(inputSum) + (cacheSum) + ((outputSum) * burndownRate)` of
`lib/cdk-quota-dashboards-stack.ts`. -/
def aggActualConsumption (profileIds : List String) (burndownRate : Nat) : MathExpression :=
  { expression :=
      .add (.add (.sumOf (inputPartsFrom 0 profileIds)) (.sumOf (cachePartsFrom 0 profileIds)))
        (.mulC (.sumOf (outputPartsFrom 0 profileIds)) burndownRate),
    usingMetrics := aggUsingMetrics profileIds,
    label := "Actual Consumption (" ++ toString profileIds.length ++ " profiles)",
    periodMinutes := 1 }

/-- The aggregated Initial Reservation `MathExpression`
`(inputSum) + (cacheSum) + (maxTokensSum)`. -/
def aggInitialReservation (profileIds : List String) : MathExpression :=
  { expression :=
      .add (.add (.sumOf (inputPartsFrom 0 profileIds)) (.sumOf (cachePartsFrom 0 profileIds)))
        (.sumOf (maxPartsFrom 0 profileIds)),
    usingMetrics := aggUsingMetrics profileIds,
    label := "Initial Reservation (" ++ toString profileIds.length ++ " profiles)",
    periodMinutes := 1 }

/-- The aggregated invocation-sum `MathExpression`. -/
def aggInvocations (profileIds : List String) : MathExpression :=
  { expression := .sumOf (invPartsFrom 0 profileIds),
    usingMetrics := aggUsingMetrics profileIds,
    label := "Total Invocations (" ++ toString profileIds.length ++ " profiles)",
    periodMinutes := 1 }

/-- The single-profile Actual Consumption `MathExpression`
`inputTokens + cacheWriteTokens + (outputTokens * burndownRate)`. -/
def singleActualConsumption (metrics : ProfileMetrics) (burndownRate : Nat) : MathExpression :=
  { expression :=
      .add (.add (.v "inputTokens") (.v "cacheWriteTokens"))
        (.mulC (.v "outputTokens") burndownRate),
    usingMetrics :=
      [("inputTokens", metrics.inputTokens),
       ("cacheWriteTokens", metrics.cacheWriteTokens),
       ("outputTokens", metrics.outputTokens)],
    label := "Actual Consumption", periodMinutes := 1 }

/-- The single-profile Initial Reservation `MathExpression`
`inputTokens + cacheWriteTokens + maxTokens`. -/
def singleInitialReservation (metrics : ProfileMetrics) : MathExpression :=
  { expression := .add (.add (.v "inputTokens") (.v "cacheWriteTokens")) (.v "maxTokens"),
    usingMetrics :=
      [("inputTokens", metrics.inputTokens),
       ("cacheWriteTokens", metrics.cacheWriteTokens),
       ("maxTokens", metrics.maxTokens)],
    label := "Initial Reservation", periodMinutes := 1 }

/-- `hasApplicationProfiles` of one entry: the optional id list is
present and non-empty. -/
def hasApplicationProfiles (config : DashboardConfig) : Bool :=
  !config.applicationProfileIds.isEmpty

/-- `allProfileIds` of one entry: the full model id followed by the
application profile ids when aggregating, the full model id alone
otherwise. -/
def allProfileIds (config : DashboardConfig) : List String :=
  if hasApplicationProfiles config then
    getFullModelId config.modelConfig config.endpointType :: config.applicationProfileIds
  else
    [getFullModelId config.modelConfig config.endpointType]

/-- The three derived series of one dashboard entry. -/
structure EntrySeries where
  actualConsumption : IMetric
  initialReservation : IMetric
  totalInvocations : IMetric
deriving DecidableEq

/-- The `actualConsumption`/`initialReservation`/`totalInvocations`
construction of `lib/cdk-quota-dashboards-stack.ts` (lines 374-464):
aggregated math expressions over all profiles when application profiles
are present, the simple single-profile expressions (and the plain
invocations metric) otherwise. -/
def entrySeries (config : DashboardConfig) : EntrySeries :=
  let burndownRate := config.modelConfig.outputTokenBurndownRate
  if hasApplicationProfiles config then
    { actualConsumption := .mathExpression (aggActualConsumption (allProfileIds config) burndownRate),
      initialReservation := .mathExpression (aggInitialReservation (allProfileIds config)),
      totalInvocations := .mathExpression (aggInvocations (allProfileIds config)) }
  else
    let metrics := createProfileMetrics (getFullModelId config.modelConfig config.endpointType)
    { actualConsumption := .mathExpression (singleActualConsumption metrics burndownRate),
      initialReservation := .mathExpression (singleInitialReservation metrics),
      totalInvocations := .metric metrics.invocations }

/-- One (model identity, token-quota code, request-quota code) tuple
handed to the quota-fetcher Lambda. -/
structure FetchModel where
  modelId : String
  tokenQuotaCode : Option String
  requestQuotaCode : Option String
deriving DecidableEq

/-- `eventBridgeModels` from `lib/cdk-quota-dashboards-stack.ts` (lines
175-189): the tuple list put on the recurring EventBridge refresh event;
entries whose registry lookup returns no quota codes are mapped to null
and filtered out. -/
def eventBridgeModels (dashboardConfigs : List DashboardConfig) : List FetchModel :=
  (dashboardConfigs.map fun config =>
    match getQuotaCodes config.modelConfig config.endpointType with
    | none => none
    | some quotaCodes =>
      some { modelId := getFullModelId config.modelConfig config.endpointType,
             tokenQuotaCode := quotaCodes.tokenQuotaCode,
             requestQuotaCode := quotaCodes.requestQuotaCode }).filterMap id

/-- `customResourceModels` from `lib/cdk-quota-dashboards-stack.ts`
(lines 213-227): the tuple list put on the one-time initial-fetch custom
resource; entries whose registry lookup returns no quota codes are mapped
to null and filtered out. -/
def customResourceModels (dashboardConfigs : List DashboardConfig) : List FetchModel :=
  (dashboardConfigs.map fun config =>
    match getQuotaCodes config.modelConfig config.endpointType with
    | none => none
    | some quotaCodes =>
      some { modelId := getFullModelId config.modelConfig config.endpointType,
             tokenQuotaCode := quotaCodes.tokenQuotaCode,
             requestQuotaCode := quotaCodes.requestQuotaCode }).filterMap id

/-- `String.startsWith`, computed over the underlying character lists
(extensionally the same test; this form evaluates inside the kernel). -/
def strStartsWith (s pat : String) : Bool :=
  pat.data.isPrefixOf s.data

/-- `getModelFamily` from `lib/cdk-quota-dashboards-stack.ts`: the
ordered chain of model-id prefix checks ending in the Other Models
catch-all. -/
def getModelFamily (modelId : String) : String :=
  if strStartsWith modelId "amazon.nova-" then "Amazon Nova"
  else if strStartsWith modelId "amazon.titan-" then "Amazon Titan"
  else if strStartsWith modelId "anthropic.claude" then "Anthropic Claude"
  else if strStartsWith modelId "meta" then "Meta"
  else if strStartsWith modelId "mistral." then "Mistral AI"
  else if strStartsWith modelId "cohere." then "Cohere"
  else if strStartsWith modelId "ai21." then "AI21 Labs"
  else if strStartsWith modelId "deepseek." then "DeepSeek"
  else if strStartsWith modelId "google." then "Google"
  else if strStartsWith modelId "nvidia." then "NVIDIA"
  else if strStartsWith modelId "openai." then "OpenAI"
  else if strStartsWith modelId "qwen." then "Qwen"
  else if strStartsWith modelId "kimi." then "Kimi"
  else if strStartsWith modelId "minimax." then "Minimax"
  else if strStartsWith modelId "magistral." then "Magistral"
  else "Other Models"

/-- A dashboard widget: a text banner or a graph with its title and
left-axis series. -/
inductive Widget
  | text (markdown : String) (width height : Nat)
  | graph (title : String) (left : List IMetric)
deriving DecidableEq

/-- Whether a widget is a text banner. -/
def Widget.isBanner : Widget → Bool
  | .text _ _ _ => true
  | .graph _ _ => false

/-- The family banner `TextWidget`. -/
def bannerWidget (family : String) : Widget :=
  .text ("# " ++ family) 24 1

/-- The `titleSuffix` of one entry. -/
def titleSuffixFor (config : DashboardConfig) : String :=
  if hasApplicationProfiles config then
    " (" ++ toString (allProfileIds config).length ++ " profiles aggregated)"
  else ""

/-- The three graph widgets added for one dashboard entry, in order:
Initial Reservation, Actual Consumption, Request Quota Consumption, each
with its quota reference line. -/
def graphWidgetsFor (config : DashboardConfig) : List Widget :=
  let fullModelId := getFullModelId config.modelConfig config.endpointType
  let series := entrySeries config
  [.graph (fullModelId ++ " - Initial Reservation" ++ titleSuffixFor config)
     [series.initialReservation, .mathExpression (tokenQuotaLine fullModelId)],
   .graph (fullModelId ++ " - Actual Consumption" ++ titleSuffixFor config)
     [series.actualConsumption, .mathExpression (tokenQuotaLine fullModelId)],
   .graph (fullModelId ++ " - Request Quota Consumption" ++ titleSuffixFor config)
     [series.totalInvocations, .mathExpression (requestQuotaLine fullModelId)]]

/-- One pass of the `dashboardConfigs.forEach` rendering loop of
`lib/cdk-quota-dashboards-stack.ts` (lines 270-531): an entry whose
registry lookup yields no quota codes is skipped (before the banner
check, leaving `currentFamily` untouched); otherwise a banner is added
when the entry's family differs from `currentFamily`, followed by the
entry's three graph widgets. -/
def renderStep (state : Option String × List Widget) (config : DashboardConfig) :
    Option String × List Widget :=
  match getQuotaCodes config.modelConfig config.endpointType with
  | none => state
  | some _ =>
    let modelFamily := getModelFamily config.modelConfig.modelId
    let withBanner :=
      if some modelFamily ≠ state.1 then state.2 ++ [bannerWidget modelFamily] else state.2
    (some modelFamily, withBanner ++ graphWidgetsFor config)

/-- The widget list of the whole dashboard: the rendering loop folded
over the configuration list with `currentFamily` starting as null. -/
def renderWidgets (configs : List DashboardConfig) : List Widget :=
  (configs.foldl renderStep (none, [])).2

/-- Specification-side rendering (from the spec's words, for comparison
with `renderWidgets`): entries in declaration order, and a family banner
inserted immediately before an entry exactly when the entry's family
differs from the previous entry's family (the first entry always gets a
banner). -/
def renderWidgetsSpec (previousFamily : Option String) : List DashboardConfig → List Widget
  | [] => []
  | config :: rest =>
    let family := getModelFamily config.modelConfig.modelId
    (if some family ≠ previousFamily then [bannerWidget family] else []) ++
      graphWidgetsFor config ++ renderWidgetsSpec (some family) rest

/-- What the stack constructor produces after validation: the scheduled
and initial fetch tuple lists and the dashboard widgets. -/
structure StackOutput where
  scheduledModels : List FetchModel
  initialFetchModels : List FetchModel
  widgets : List Widget
deriving DecidableEq

/-- The stack constructor of `lib/cdk-quota-dashboards-stack.ts`:
`validateAllDashboardConfigs` runs first (line 130) and its error aborts
the build before any fetch list or widget is produced. -/
def buildStack (configs : List DashboardConfig) : Except String StackOutput := do
  validateAllDashboardConfigs configs
  pure { scheduledModels := eventBridgeModels configs,
         initialFetchModels := customResourceModels configs,
         widgets := renderWidgets configs }

/-- The model-id dimensions of all metrics referenced by one series. -/
def seriesDims : IMetric → List String
  | .metric m => [m.modelIdDim]
  | .mathExpression e => e.usingMetrics.map fun binding => binding.2.modelIdDim

/-- The model-id dimensions of every metric of every series of an
entry's three widgets. -/
def entryWidgetDims (config : DashboardConfig) : List String :=
  ((graphWidgetsFor config).map fun w =>
    match w with
    | .text _ _ _ => []
    | .graph _ left => (left.map seriesDims).flatten).flatten

/-- One published quota-limit point: the limit-kind metric name
(TokenQuota or RequestQuota), the model identity dimension and the
queried numeric value. -/
structure LimitPoint where
  metricName : String
  modelId : String
  value : Nat
deriving DecidableEq

/-- Modelled from the spec: the quota-fetcher Lambda handler
(`lib/lambda/quota-fetcher-lambda.py`) is not among the repository files
under src/, only its CDK wiring is.  Per the spec, for one tuple the
fetcher queries the limits service for the token-quota identifier (when
defined) and publishes a TokenQuota point scoped to the model identity,
does the same for the request-quota identifier as a RequestQuota point,
and on a query failure publishes nothing for that identifier and logs
the failure with its context. -/
def fetchTupleResult (query : String → Except String Nat) (t : FetchModel) :
    List LimitPoint × List String :=
  let tokenPart : List LimitPoint × List String :=
    match t.tokenQuotaCode with
    | none => ([], [])
    | some code =>
      match query code with
      | .ok value => ([{ metricName := "TokenQuota", modelId := t.modelId, value := value }], [])
      | .error e => ([], ["Failed to fetch quota " ++ code ++ " for " ++ t.modelId ++ ": " ++ e])
  let requestPart : List LimitPoint × List String :=
    match t.requestQuotaCode with
    | none => ([], [])
    | some code =>
      match query code with
      | .ok value => ([{ metricName := "RequestQuota", modelId := t.modelId, value := value }], [])
      | .error e => ([], ["Failed to fetch quota " ++ code ++ " for " ++ t.modelId ++ ": " ++ e])
  (tokenPart.1 ++ requestPart.1, tokenPart.2 ++ requestPart.2)

/-- Modelled from the spec: `refresh(modelList)` processes the tuples of
the batch one after the other, collecting each tuple's published points
and logged failures; one tuple's failure does not abort the rest of the
batch. -/
def refresh (query : String → Except String Nat) : List FetchModel → List LimitPoint × List String
  | [] => ([], [])
  | t :: rest =>
    let here := fetchTupleResult query t
    let there := refresh query rest
    (here.1 ++ there.1, here.2 ++ there.2)

/-- The `allDashboardConfigs` list of the stack constructor
(`lib/cdk-quota-dashboards-stack.ts` lines 106-127), against the active
us-east-1 registry. -/
def allDashboardConfigs : List DashboardConfig := [
  { modelConfig := UsEast1.AMAZON_NOVA_2_LITE_V1, endpointType := .crossRegion },
  { modelConfig := UsEast1.ANTHROPIC_CLAUDE_HAIKU_4_5, endpointType := .crossRegion },
  { modelConfig := UsEast1.ANTHROPIC_CLAUDE_SONNET_4_5, endpointType := .globalCrossRegion },
  { modelConfig := UsEast1.ANTHROPIC_CLAUDE_SONNET_4_6, endpointType := .globalCrossRegion },
  { modelConfig := UsEast1.ANTHROPIC_CLAUDE_SONNET_4_6_1M, endpointType := .globalCrossRegion },
  { modelConfig := UsEast1.ANTHROPIC_CLAUDE_OPUS_4_5, endpointType := .globalCrossRegion },
  { modelConfig := UsEast1.ANTHROPIC_CLAUDE_OPUS_4_6, endpointType := .globalCrossRegion },
  { modelConfig := UsEast1.ANTHROPIC_CLAUDE_OPUS_4_6_1M, endpointType := .globalCrossRegion }
]

instance {ε α : Type} [DecidableEq ε] [DecidableEq α] : DecidableEq (Except ε α) := fun x y =>
  match x, y with
  | .ok a, .ok b => if h : a = b then .isTrue (by rw [h]) else .isFalse (by simp [h])
  | .error e, .error f => if h : e = f then .isTrue (by rw [h]) else .isFalse (by simp [h])
  | .ok _, .error _ => .isFalse (by simp)
  | .error _, .ok _ => .isFalse (by simp)

/-- A model config carrying no registry data at all: what
`validateAllDashboardConfigs` reports as not found in the quota
registry. -/
def emptyModelConfig : ModelConfig :=
  { modelId := "unregistered.model-v1:0", outputTokenBurndownRate := 1,
    supportedEndpoints := [], regional := none, crossRegion := none,
    globalCrossRegion := none }

/-- A single-profile dashboard entry over a burndown-rate-5 model. -/
def singleEntryConfig : DashboardConfig :=
  { modelConfig := UsEast1.ANTHROPIC_CLAUDE_SONNET_4_5,
    endpointType := .globalCrossRegion }

/-- Bucket values InputTokens=1000, CacheWriteTokens=0, OutputTokens=100. -/
def exampleCounterEnv : String → Nat := fun key =>
  if key = "inputTokens" then 1000
  else if key = "outputTokens" then 100
  else 0

/-- A dashboard entry of a burndown-rate-1 model with one auxiliary
application inference profile. -/
def aggEntryConfig : DashboardConfig :=
  { modelConfig := UsEast1.AMAZON_NOVA_LITE_V1, endpointType := .crossRegion,
    applicationProfileIds := ["grjihoh0los8"] }

/-- Bucket values: primary (500, 0, 50), auxiliary (300, 0, 20). -/
def aggCounterEnv : String → Nat := fun key =>
  if key = "inputTokens" then 500
  else if key = "outputTokens" then 50
  else if key = "inputTokens_1" then 300
  else if key = "outputTokens_1" then 20
  else 0

/-- Invalid: the us-east-1 Nova Premier model supports only cross-region. -/
def invalidConfigA : DashboardConfig :=
  { modelConfig := UsEast1.AMAZON_NOVA_PREMIER_V1, endpointType := .regional }

/-- Invalid: Claude 3.7 Sonnet supports only cross-region. -/
def invalidConfigB : DashboardConfig :=
  { modelConfig := UsEast1.ANTHROPIC_CLAUDE_3_7_SONNET, endpointType := .regional }

/-- Valid: Nova Lite on its supported cross-region endpoint. -/
def validConfigC : DashboardConfig :=
  { modelConfig := UsEast1.AMAZON_NOVA_LITE_V1, endpointType := .crossRegion }

/-- A configuration list with two simultaneous violations and one valid
entry. -/
def mixedValidityConfigs : List DashboardConfig :=
  [invalidConfigA, invalidConfigB, validConfigC]

/-- Three valid entries whose families alternate Amazon Nova, Anthropic
Claude, Amazon Nova: not pre-sorted by family. -/
def alternatingFamilies : List DashboardConfig :=
  [{ modelConfig := UsEast1.AMAZON_NOVA_LITE_V1, endpointType := .crossRegion },
   { modelConfig := UsEast1.ANTHROPIC_CLAUDE_3_HAIKU, endpointType := .crossRegion },
   { modelConfig := UsEast1.AMAZON_NOVA_PRO_V1, endpointType := .crossRegion }]

/-- A cross-region dashboard entry for the dimension claims. -/
def crossRegionEntryConfig : DashboardConfig :=
  { modelConfig := UsEast1.ANTHROPIC_CLAUDE_HAIKU_4_5, endpointType := .crossRegion }

/-- First tuple of the three-tuple fetcher batch. -/
def fetchTupleA : FetchModel :=
  { modelId := "us.model-a", tokenQuotaCode := some "L-AAAA0001",
    requestQuotaCode := some "L-AAAA0002" }

/-- Second tuple of the three-tuple fetcher batch (its queries throw). -/
def fetchTupleB : FetchModel :=
  { modelId := "us.model-b", tokenQuotaCode := some "L-BBBB0001",
    requestQuotaCode := some "L-BBBB0002" }

/-- Third tuple of the three-tuple fetcher batch. -/
def fetchTupleC : FetchModel :=
  { modelId := "us.model-c", tokenQuotaCode := some "L-CCCC0001",
    requestQuotaCode := some "L-CCCC0002" }

/-- A limits service that throws exactly on the second tuple's
identifiers. -/
def throttledOnB : String → Except String Nat := fun code =>
  if code = "L-BBBB0001" || code = "L-BBBB0002" then Except.error "throttled"
  else Except.ok 100

/-- C4: for every model descriptor in the active region's registry table
(us-east-1; the us-west-2 table of the same registry file is covered as
well) and every endpoint kind `k`, `supports(model, k)` is true iff
`lookup(model, k)` returns a present quota-code pair containing at least
one of the two identifiers. -/
theorem registry_self_consistency :
    (∀ m ∈ usEast1Models, ∀ k : EndpointType,
      validateModelEndpointSupport m k = true ↔ presentQuotaCodes m k = true) ∧
    (∀ m ∈ usWest2Models, ∀ k : EndpointType,
      validateModelEndpointSupport m k = true ↔ presentQuotaCodes m k = true) := by
  constructor <;> decide

/-- Witness for C4 at a concrete registry model and endpoint kind. -/
theorem registry_self_consistency_instance :
    UsEast1.AMAZON_NOVA_2_LITE_V1 ∈ usEast1Models ∧
      (validateModelEndpointSupport UsEast1.AMAZON_NOVA_2_LITE_V1 EndpointType.globalCrossRegion = true ↔
        presentQuotaCodes UsEast1.AMAZON_NOVA_2_LITE_V1 EndpointType.globalCrossRegion = true) :=
  ⟨by decide, registry_self_consistency.1 UsEast1.AMAZON_NOVA_2_LITE_V1 (by decide)
    EndpointType.globalCrossRegion⟩

/-- C5: the registry lookup returns an absent result rather than
failing: for a model carrying no registry data it returns `none` for
every endpoint kind, and for an endpoint kind whose quota-code property
is undefined it returns `none`.  The lookup is a total function into an
optional result (the embedding of a TypeScript function whose every
branch returns a value or null), so no input makes it throw. -/
theorem quota_lookup_absent (m : ModelConfig) (k : EndpointType) :
    (unknownToRegistry m → getQuotaCodes m k = none) ∧
    (m.regional = none → getQuotaCodes m EndpointType.regional = none) ∧
    (m.crossRegion = none → getQuotaCodes m EndpointType.crossRegion = none) ∧
    (m.globalCrossRegion = none → getQuotaCodes m EndpointType.globalCrossRegion = none) := by
  refine ⟨fun h => ?_, fun h => h, fun h => h, fun h => h⟩
  rcases h with ⟨h1, h2, h3⟩
  cases k <;> simp [getQuotaCodes, h1, h2, h3]

/-- Witness for C5 at a model unknown to the registry. -/
theorem quota_lookup_absent_instance :
    getQuotaCodes emptyModelConfig EndpointType.crossRegion = none :=
  (quota_lookup_absent emptyModelConfig EndpointType.crossRegion).1 ⟨rfl, rfl, rfl⟩

/-- C8: for every configuration list, the model/quota-code tuple list
supplied to the one-time initial quota fetch is identical (same tuples,
same order, same exclusion of entries with missing quota codes) to the
tuple list supplied to the recurring scheduled refresh. -/
theorem fetch_model_lists_agree (dashboardConfigs : List DashboardConfig) :
    customResourceModels dashboardConfigs = eventBridgeModels dashboardConfigs := rfl

/-- C1: for a dashboard entry with no application profiles, the Actual
Consumption series is the math expression
`inputTokens + cacheWriteTokens + (outputTokens * burndownRate)`; its
three bound counters all use the Sum statistic over the same one-minute
bucket, and its value on a bucket is
input + cacheWrite + output * burndownRate. -/
theorem actual_consumption_single_entry (config : DashboardConfig)
    (h : config.applicationProfileIds = []) :
    (entrySeries config).actualConsumption =
      IMetric.mathExpression (singleActualConsumption
        (createProfileMetrics (getFullModelId config.modelConfig config.endpointType))
        config.modelConfig.outputTokenBurndownRate) ∧
    (∀ (fid : String) (rate : Nat),
      ∀ binding ∈ (singleActualConsumption (createProfileMetrics fid) rate).usingMetrics,
        binding.2.statistic = "Sum" ∧ binding.2.periodMinutes = 1) ∧
    (∀ (metrics : ProfileMetrics) (rate : Nat) (env : String → Nat),
      evalExpr env (singleActualConsumption metrics rate).expression =
        env "inputTokens" + env "cacheWriteTokens" + env "outputTokens" * rate) := by
  refine ⟨?_, ?_, ?_⟩
  · simp [entrySeries, hasApplicationProfiles, h]
  · intro fid rate binding hb
    simp only [singleActualConsumption, createProfileMetrics, List.mem_cons,
      List.not_mem_nil, or_false] at hb
    rcases hb with rfl | rfl | rfl <;> exact ⟨rfl, rfl⟩
  · intro metrics rate env
    rfl

/-- Witness for C1: InputTokens=1000, CacheWriteTokens=0,
OutputTokens=100 at burndown rate 5 give Actual Consumption 1500. -/
theorem actual_consumption_single_entry_instance :
    singleEntryConfig.applicationProfileIds = [] ∧
    singleEntryConfig.modelConfig.outputTokenBurndownRate = 5 ∧
    evalExpr exampleCounterEnv (singleActualConsumption
      (createProfileMetrics (getFullModelId singleEntryConfig.modelConfig singleEntryConfig.endpointType))
      singleEntryConfig.modelConfig.outputTokenBurndownRate).expression = 1500 := by
  refine ⟨rfl, rfl, ?_⟩
  rw [(actual_consumption_single_entry singleEntryConfig rfl).2.2]
  decide

/-- The aggregated expression's three part sums, evaluated from an
arbitrary starting index, equal the sum over profiles of the
per-identity formula. -/
theorem agg_parts_eval (env : String → Nat) (rate : Nat) :
    ∀ (profileIds : List String) (start : Nat),
      ((inputPartsFrom start profileIds).map env).sum +
        ((cachePartsFrom start profileIds).map env).sum +
        ((outputPartsFrom start profileIds).map env).sum * rate =
      ∑ i ∈ Finset.range profileIds.length,
        (env (inputKeyAt (start + i)) + env (cacheKeyAt (start + i)) +
          env (outputKeyAt (start + i)) * rate) := by
  intro profileIds
  induction profileIds with
  | nil => intro start; simp [inputPartsFrom, cachePartsFrom, outputPartsFrom]
  | cons p rest ih =>
    intro start
    have hsum := Finset.sum_range_succ' (fun i =>
      env (inputKeyAt (start + i)) + env (cacheKeyAt (start + i)) +
        env (outputKeyAt (start + i)) * rate) rest.length
    simp only [List.length_cons]
    rw [hsum]
    have hrec := ih (start + 1)
    have hshift : ∀ i : Nat, start + (i + 1) = (start + 1) + i := by omega
    simp only [inputPartsFrom, cachePartsFrom, outputPartsFrom, List.map_cons,
      List.sum_cons, Nat.add_zero]
    rw [Finset.sum_congr rfl (fun i _ => by rw [hshift i])]
    rw [← hrec]
    ring

/-- Each profile's metrics appear in the aggregated `usingMetrics` under
the keys of that profile's index. -/
theorem mem_aggUsingMetricsFrom :
    ∀ (profileIds : List String) (start i : Nat) (hi : i < profileIds.length),
      (inputKeyAt (start + i),
        (createProfileMetrics (profileIds.get ⟨i, hi⟩)).inputTokens) ∈
          aggUsingMetricsFrom start profileIds ∧
      (cacheKeyAt (start + i),
        (createProfileMetrics (profileIds.get ⟨i, hi⟩)).cacheWriteTokens) ∈
          aggUsingMetricsFrom start profileIds ∧
      (outputKeyAt (start + i),
        (createProfileMetrics (profileIds.get ⟨i, hi⟩)).outputTokens) ∈
          aggUsingMetricsFrom start profileIds := by
  intro profileIds
  induction profileIds with
  | nil => intro start i hi; simp at hi
  | cons p rest ih =>
    intro start i hi
    cases i with
    | zero =>
      refine ⟨?_, ?_, ?_⟩ <;>
        simp [aggUsingMetricsFrom, profileMetricEntries]
    | succ j =>
      have hj : j < rest.length := by simpa using hi
      have hrec := ih (start + 1) j hj
      have hshift : start + (j + 1) = (start + 1) + j := by omega
      refine ⟨?_, ?_, ?_⟩ <;>
        · rw [hshift]
          simp only [aggUsingMetricsFrom, List.mem_append, List.get_cons_succ]
          right
          first
          | exact hrec.1
          | exact hrec.2.1
          | exact hrec.2.2

/-- The aggregated initial-reservation part sums, from an arbitrary
starting index, equal the per-identity sum. -/
theorem agg_init_eval (env : String → Nat) :
    ∀ (profileIds : List String) (start : Nat),
      ((inputPartsFrom start profileIds).map env).sum +
        ((cachePartsFrom start profileIds).map env).sum +
        ((maxPartsFrom start profileIds).map env).sum =
      ∑ i ∈ Finset.range profileIds.length,
        (env (inputKeyAt (start + i)) + env (cacheKeyAt (start + i)) +
          env (maxKeyAt (start + i))) := by
  intro profileIds
  induction profileIds with
  | nil => intro start; simp [inputPartsFrom, cachePartsFrom, maxPartsFrom]
  | cons p rest ih =>
    intro start
    have hsum := Finset.sum_range_succ' (fun i =>
      env (inputKeyAt (start + i)) + env (cacheKeyAt (start + i)) +
        env (maxKeyAt (start + i))) rest.length
    simp only [List.length_cons]
    rw [hsum]
    have hrec := ih (start + 1)
    have hshift : ∀ i : Nat, start + (i + 1) = (start + 1) + i := by omega
    simp only [inputPartsFrom, cachePartsFrom, maxPartsFrom, List.map_cons,
      List.sum_cons, Nat.add_zero]
    rw [Finset.sum_congr rfl (fun i _ => by rw [hshift i])]
    rw [← hrec]
    ring

/-- The aggregated invocation sum, from an arbitrary starting index,
equals the per-identity sum. -/
theorem agg_inv_eval (env : String → Nat) :
    ∀ (profileIds : List String) (start : Nat),
      ((invPartsFrom start profileIds).map env).sum =
      ∑ i ∈ Finset.range profileIds.length, env (invKeyAt (start + i)) := by
  intro profileIds
  induction profileIds with
  | nil => intro start; simp [invPartsFrom]
  | cons p rest ih =>
    intro start
    have hsum := Finset.sum_range_succ' (fun i => env (invKeyAt (start + i))) rest.length
    simp only [List.length_cons]
    rw [hsum]
    have hrec := ih (start + 1)
    have hshift : ∀ i : Nat, start + (i + 1) = (start + 1) + i := by omega
    simp only [invPartsFrom, List.map_cons, List.sum_cons, Nat.add_zero]
    rw [Finset.sum_congr rfl (fun i _ => by rw [hshift i])]
    rw [← hrec]
    ring

/-- C2: for a dashboard entry with auxiliary application profiles, the
three derived series are the aggregated expressions over the primary
full model id followed by all auxiliary ids; on a bucket, Actual
Consumption is the sum over all identities of
input + cacheWrite + output * rate with the one shared burndown rate of
the primary model applied to the summed output term, Initial Reservation
the sum of input + cacheWrite + maxTokens, the request series the sum of
invocations, and each identity's own counters are bound under that
identity's keys. -/
theorem actual_consumption_aggregated (config : DashboardConfig)
    (h : config.applicationProfileIds ≠ []) :
    (entrySeries config).actualConsumption =
      IMetric.mathExpression (aggActualConsumption (allProfileIds config)
        config.modelConfig.outputTokenBurndownRate) ∧
    allProfileIds config =
      getFullModelId config.modelConfig config.endpointType :: config.applicationProfileIds ∧
    (∀ (profileIds : List String) (rate : Nat) (env : String → Nat),
      evalExpr env (aggActualConsumption profileIds rate).expression =
        ∑ i ∈ Finset.range profileIds.length,
          (env (inputKeyAt i) + env (cacheKeyAt i) + env (outputKeyAt i) * rate)) ∧
    (∀ (profileIds : List String) (rate : Nat) (i : Nat) (hi : i < profileIds.length),
      (inputKeyAt i, (createProfileMetrics (profileIds.get ⟨i, hi⟩)).inputTokens) ∈
        (aggActualConsumption profileIds rate).usingMetrics ∧
      (cacheKeyAt i, (createProfileMetrics (profileIds.get ⟨i, hi⟩)).cacheWriteTokens) ∈
        (aggActualConsumption profileIds rate).usingMetrics ∧
      (outputKeyAt i, (createProfileMetrics (profileIds.get ⟨i, hi⟩)).outputTokens) ∈
        (aggActualConsumption profileIds rate).usingMetrics) ∧
    (entrySeries config).initialReservation =
      IMetric.mathExpression (aggInitialReservation (allProfileIds config)) ∧
    (∀ (profileIds : List String) (env : String → Nat),
      evalExpr env (aggInitialReservation profileIds).expression =
        ∑ i ∈ Finset.range profileIds.length,
          (env (inputKeyAt i) + env (cacheKeyAt i) + env (maxKeyAt i))) ∧
    (entrySeries config).totalInvocations =
      IMetric.mathExpression (aggInvocations (allProfileIds config)) ∧
    (∀ (profileIds : List String) (env : String → Nat),
      evalExpr env (aggInvocations profileIds).expression =
        ∑ i ∈ Finset.range profileIds.length, env (invKeyAt i)) := by
  have hne : hasApplicationProfiles config = true := by
    simp [hasApplicationProfiles, List.isEmpty_iff, h]
  refine ⟨?_, ?_, ?_, ?_, ?_, ?_, ?_, ?_⟩
  · simp [entrySeries, hne]
  · simp [allProfileIds, hasApplicationProfiles, List.isEmpty_iff, h]
  · intro profileIds rate env
    have := agg_parts_eval env rate profileIds 0
    simpa [aggActualConsumption, evalExpr] using this
  · intro profileIds rate i hi
    have := mem_aggUsingMetricsFrom profileIds 0 i hi
    simpa [aggActualConsumption, aggUsingMetrics] using this
  · simp [entrySeries, hne]
  · intro profileIds env
    have := agg_init_eval env profileIds 0
    simpa [aggInitialReservation, evalExpr] using this
  · simp [entrySeries, hne]
  · intro profileIds env
    have := agg_inv_eval env profileIds 0
    simpa [aggInvocations, evalExpr] using this

/-- Witness for C2: primary (500, 0, 50) and one auxiliary (300, 0, 20)
at burndown rate 1 give aggregated Actual Consumption 870. -/
theorem actual_consumption_aggregated_instance :
    aggEntryConfig.applicationProfileIds = ["grjihoh0los8"] ∧
    aggEntryConfig.modelConfig.outputTokenBurndownRate = 1 ∧
    (allProfileIds aggEntryConfig).length = 2 ∧
    evalExpr aggCounterEnv (aggActualConsumption (allProfileIds aggEntryConfig)
      aggEntryConfig.modelConfig.outputTokenBurndownRate).expression = 870 := by
  refine ⟨rfl, rfl, rfl, ?_⟩
  rw [(actual_consumption_aggregated aggEntryConfig (by decide)).2.2.1]
  decide

/-- Emptiness of the collected validation errors, from any starting
index, is equivalent to every configuration being valid. -/
theorem configErrorsFrom_nil_iff :
    ∀ (configs : List DashboardConfig) (start : Nat),
      configErrorsFrom start configs = [] ↔
        ∀ c ∈ configs, validateModelEndpointSupport c.modelConfig c.endpointType = true := by
  intro configs
  induction configs with
  | nil => intro start; simp [configErrorsFrom]
  | cons c rest ih =>
    intro start
    by_cases hv : validateModelEndpointSupport c.modelConfig c.endpointType = true
    · simp [configErrorsFrom, hv, ih (start + 1)]
    · simp [configErrorsFrom, hv]

/-- Every invalid configuration contributes its own message to the
collected validation errors. -/
theorem mem_configErrorsFrom :
    ∀ (configs : List DashboardConfig) (start i : Nat) (hi : i < configs.length),
      validateModelEndpointSupport (configs.get ⟨i, hi⟩).modelConfig
          (configs.get ⟨i, hi⟩).endpointType = false →
        configErrorMessage (start + i) (configs.get ⟨i, hi⟩) ∈ configErrorsFrom start configs := by
  intro configs
  induction configs with
  | nil => intro start i hi; simp at hi
  | cons c rest ih =>
    intro start i hi hbad
    cases i with
    | zero =>
      have hb : validateModelEndpointSupport c.modelConfig c.endpointType = false := by
        simpa using hbad
      simp [configErrorsFrom, hb]
    | succ j =>
      have hj : j < rest.length := by simpa using hi
      have hrec := ih (start + 1) j hj (by simpa using hbad)
      have hshift : start + (j + 1) = (start + 1) + j := by omega
      rw [hshift]
      by_cases hv : validateModelEndpointSupport c.modelConfig c.endpointType = true
      · simp only [configErrorsFrom, hv, if_true, List.get_cons_succ]
        simpa using hrec
      · simp only [configErrorsFrom, hv, if_false, List.get_cons_succ, List.mem_cons]
        right
        simpa using hrec

/-- C3: a configuration list validates cleanly iff every entry's
endpoint kind is supported by its model; a list with a violation makes
the whole stack build return a single error (no fetch lists, no widgets)
whose collected messages contain the message of every invalid entry, not
only the first; and a list with no violation builds the full output. -/
theorem dashboard_config_validation :
    (∀ configs : List DashboardConfig,
      validateAllDashboardConfigs configs = Except.ok () ↔
        ∀ c ∈ configs, validateModelEndpointSupport c.modelConfig c.endpointType = true) ∧
    (∀ configs : List DashboardConfig,
      (∃ c ∈ configs, validateModelEndpointSupport c.modelConfig c.endpointType = false) →
        buildStack configs = Except.error (invalidConfigsMessage (configErrors configs))) ∧
    (∀ (configs : List DashboardConfig) (i : Nat) (hi : i < configs.length),
      validateModelEndpointSupport (configs.get ⟨i, hi⟩).modelConfig
          (configs.get ⟨i, hi⟩).endpointType = false →
        configErrorMessage i (configs.get ⟨i, hi⟩) ∈ configErrors configs) ∧
    (∀ configs : List DashboardConfig,
      (∀ c ∈ configs, validateModelEndpointSupport c.modelConfig c.endpointType = true) →
        buildStack configs = Except.ok
          { scheduledModels := eventBridgeModels configs,
            initialFetchModels := customResourceModels configs,
            widgets := renderWidgets configs }) := by
  have hval : ∀ configs : List DashboardConfig,
      validateAllDashboardConfigs configs = Except.ok () ↔ configErrors configs = [] := by
    intro configs
    by_cases hlen : (configErrors configs).length > 0
    · constructor
      · intro hok
        simp [validateAllDashboardConfigs, hlen] at hok
      · intro hnil; rw [hnil] at hlen; simp at hlen
    · have hnil : configErrors configs = [] := by
        cases hce : configErrors configs with
        | nil => rfl
        | cons a b => rw [hce] at hlen; simp at hlen
      simp [validateAllDashboardConfigs, hnil]
  refine ⟨?_, ?_, ?_, ?_⟩
  · intro configs
    rw [hval configs]
    exact configErrorsFrom_nil_iff configs 0
  · intro configs ⟨c, hc, hbad⟩
    have hne : configErrors configs ≠ [] := by
      intro hnil
      have := (configErrorsFrom_nil_iff configs 0).mp hnil c hc
      rw [hbad] at this
      exact Bool.false_ne_true this
    have hlen : (configErrors configs).length > 0 := List.length_pos.mpr hne
    simp [buildStack, validateAllDashboardConfigs, hlen, Except.bind]
  · intro configs i hi hbad
    simpa using mem_configErrorsFrom configs 0 i hi hbad
  · intro configs hall
    have hok := (hval configs).mpr ((configErrorsFrom_nil_iff configs 0).mpr hall)
    simp [buildStack, hok, Except.bind]

/-- Witness for C3: two simultaneous violations are both named, the
build aborts with the single aggregated error, and the stack's actual
configuration list validates cleanly. -/
theorem dashboard_config_validation_instance :
    configErrorMessage 0 invalidConfigA ∈ configErrors mixedValidityConfigs ∧
    configErrorMessage 1 invalidConfigB ∈ configErrors mixedValidityConfigs ∧
    buildStack mixedValidityConfigs =
      Except.error (invalidConfigsMessage (configErrors mixedValidityConfigs)) ∧
    validateAllDashboardConfigs allDashboardConfigs = Except.ok () := by
  refine ⟨?_, ?_, ?_, ?_⟩
  · exact dashboard_config_validation.2.2.1 mixedValidityConfigs 0 (by decide) (by decide)
  · exact dashboard_config_validation.2.2.1 mixedValidityConfigs 1 (by decide) (by decide)
  · exact dashboard_config_validation.2.1 mixedValidityConfigs
      ⟨invalidConfigA, by decide, by decide⟩
  · exact (dashboard_config_validation.1 allDashboardConfigs).mpr (by decide)

/-- The rendering fold over a configuration list whose entries all have
quota codes appends the specification-side layout to the accumulator. -/
theorem renderWidgets_foldl :
    ∀ (configs : List DashboardConfig) (prev : Option String) (acc : List Widget),
      (∀ c ∈ configs, (getQuotaCodes c.modelConfig c.endpointType).isSome = true) →
      (configs.foldl renderStep (prev, acc)).2 = acc ++ renderWidgetsSpec prev configs := by
  intro configs
  induction configs with
  | nil => intro prev acc h; simp [renderWidgetsSpec]
  | cons c rest ih =>
    intro prev acc h
    obtain ⟨q, hq⟩ := Option.isSome_iff_exists.mp (h c (List.mem_cons_self c rest))
    have hrest : ∀ x ∈ rest, (getQuotaCodes x.modelConfig x.endpointType).isSome = true :=
      fun x hx => h x (List.mem_cons_of_mem c hx)
    simp only [List.foldl_cons]
    by_cases hf : some (getModelFamily c.modelConfig.modelId) ≠ prev
    · rw [show renderStep (prev, acc) c =
        (some (getModelFamily c.modelConfig.modelId),
          (acc ++ [bannerWidget (getModelFamily c.modelConfig.modelId)]) ++ graphWidgetsFor c) by
          simp [renderStep, hq, hf]]
      rw [ih _ _ hrest]
      simp [renderWidgetsSpec, hf]
    · rw [show renderStep (prev, acc) c =
        (some (getModelFamily c.modelConfig.modelId), acc ++ graphWidgetsFor c) by
          simp [renderStep, hq, hf]]
      rw [ih _ _ hrest]
      simp [renderWidgetsSpec, hf]

/-- Dropping the banners from the specification-side layout leaves
exactly the entries' graph widgets in declaration order. -/
theorem renderWidgetsSpec_graphs :
    ∀ (configs : List DashboardConfig) (prev : Option String),
      (renderWidgetsSpec prev configs).filter (fun w => !w.isBanner) =
        (configs.map graphWidgetsFor).flatten := by
  intro configs
  induction configs with
  | nil => intro prev; simp [renderWidgetsSpec]
  | cons c rest ih =>
    intro prev
    have hgraphs : (graphWidgetsFor c).filter (fun w => !w.isBanner) = graphWidgetsFor c := by
      simp [graphWidgetsFor, Widget.isBanner, List.filter]
    have hban : ∀ f : String, ([bannerWidget f]).filter (fun w => !w.isBanner) = [] := by
      intro f; simp [bannerWidget, Widget.isBanner, List.filter]
    by_cases hf : some (getModelFamily c.modelConfig.modelId) ≠ prev
    · simp only [renderWidgetsSpec, if_pos hf, List.filter_append, hgraphs, hban, ih,
        List.nil_append, List.map_cons, List.flatten_cons]
    · simp only [renderWidgetsSpec, if_neg hf, List.filter_append, hgraphs, ih,
        List.map_cons, List.flatten_cons, List.nil_append]

/-- C7: for a configuration list whose entries all resolve quota codes,
the rendered dashboard equals the specification-side layout — entries in
declaration order with a family banner inserted immediately before an
entry exactly when its family (model-id prefix classification with the
Other Models catch-all) differs from the previous entry's family — and
dropping banners leaves the entries' graph widgets in declaration
order. -/
theorem family_banner_layout (configs : List DashboardConfig)
    (h : ∀ c ∈ configs, (getQuotaCodes c.modelConfig c.endpointType).isSome = true) :
    renderWidgets configs = renderWidgetsSpec none configs ∧
    (renderWidgets configs).filter (fun w => !w.isBanner) =
      (configs.map graphWidgetsFor).flatten := by
  have heq : renderWidgets configs = renderWidgetsSpec none configs := by
    have := renderWidgets_foldl configs none [] h
    simpa [renderWidgets] using this
  exact ⟨heq, by rw [heq]; exact renderWidgetsSpec_graphs configs none⟩

/-- Witness for C7: families Amazon Nova, Anthropic Claude, Amazon Nova
in declaration order produce three banners — the grouping is
order-dependent, not a sort by family. -/
theorem family_banner_layout_instance :
    renderWidgets alternatingFamilies = renderWidgetsSpec none alternatingFamilies ∧
    (renderWidgets alternatingFamilies).countP Widget.isBanner = 3 :=
  ⟨(family_banner_layout alternatingFamilies (by decide)).1, by decide⟩

/-- The fetcher's refresh distributes over batch concatenation. -/
theorem refresh_append (query : String → Except String Nat) :
    ∀ (pre post : List FetchModel),
      refresh query (pre ++ post) =
        ((refresh query pre).1 ++ (refresh query post).1,
         (refresh query pre).2 ++ (refresh query post).2) := by
  intro pre post
  induction pre with
  | nil => simp [refresh]
  | cons t rest ih => simp [refresh, ih]

/-- C9: a tuple's contribution to the refresh of a batch is exactly its
own points and its own failure logs, whatever the surrounding tuples do
(a failing tuple is isolated); concretely, in a three-tuple batch whose
second tuple's queries throw, tuples one and three publish their four
points and only the second tuple's two failures are logged. -/
theorem fetch_failure_isolation :
    (∀ (query : String → Except String Nat) (pre : List FetchModel)
        (t : FetchModel) (post : List FetchModel),
      (refresh query (pre ++ t :: post)).1 =
        (refresh query pre).1 ++ (fetchTupleResult query t).1 ++ (refresh query post).1 ∧
      (refresh query (pre ++ t :: post)).2 =
        (refresh query pre).2 ++ (fetchTupleResult query t).2 ++ (refresh query post).2) ∧
    refresh throttledOnB [fetchTupleA, fetchTupleB, fetchTupleC] =
      ([{ metricName := "TokenQuota", modelId := "us.model-a", value := 100 },
        { metricName := "RequestQuota", modelId := "us.model-a", value := 100 },
        { metricName := "TokenQuota", modelId := "us.model-c", value := 100 },
        { metricName := "RequestQuota", modelId := "us.model-c", value := 100 }],
       ["Failed to fetch quota L-BBBB0001 for us.model-b: throttled",
        "Failed to fetch quota L-BBBB0002 for us.model-b: throttled"]) := by
  constructor
  · intro query pre t post
    have h := refresh_append query pre (t :: post)
    constructor
    · rw [h]
      simp [refresh, List.append_assoc]
    · rw [h]
      simp [refresh, List.append_assoc]
  · decide

/-- C10: the full model identity is the bare model id for a regional
endpoint, the id with the us. marker for cross-region and with the
global. marker for global-cross-region; and for a single-profile entry
every metric of every series of the entry's widgets carries that full
model identity as its ModelId dimension. -/
theorem full_model_id_dimension :
    (∀ m : ModelConfig,
      getFullModelId m EndpointType.regional = m.modelId ∧
      getFullModelId m EndpointType.crossRegion = "us." ++ m.modelId ∧
      getFullModelId m EndpointType.globalCrossRegion = "global." ++ m.modelId) ∧
    (∀ config : DashboardConfig, config.applicationProfileIds = [] →
      ∀ d ∈ entryWidgetDims config,
        d = getFullModelId config.modelConfig config.endpointType) := by
  constructor
  · intro m
    exact ⟨rfl, rfl, rfl⟩
  · intro config h d hd
    simp [entryWidgetDims, graphWidgetsFor, entrySeries, hasApplicationProfiles, h,
      seriesDims, singleActualConsumption, singleInitialReservation,
      createProfileMetrics, tokenQuotaLine, requestQuotaLine,
      tokenQuotaMetric, requestQuotaMetric] at hd
    exact hd

/-- Witness for C10 at a concrete cross-region entry. -/
theorem full_model_id_dimension_instance :
    crossRegionEntryConfig.applicationProfileIds = [] ∧
    "us.anthropic.claude-haiku-4-5-20251001-v1:0" =
      getFullModelId crossRegionEntryConfig.modelConfig crossRegionEntryConfig.endpointType :=
  ⟨rfl, full_model_id_dimension.2 crossRegionEntryConfig rfl
    "us.anthropic.claude-haiku-4-5-20251001-v1:0" (by decide)⟩
